import Mathlib

/-!
Verification of the blueprint compiler and staged deployment orchestrator of
`uh-engine-app` (service/backend).  The Python source is shallowly embedded:
dict-shaped records become structures with `Option` fields (absent/null keys
are `none`), Python truthiness is made explicit, exceptions become
`Except`/explicit failure flags, and the streaming generators become pure
functions returning the list of emitted events.
-/

namespace UHEngine

/-- Python truthiness of an optional string: `None` and `""` are falsy. -/
def truthy : Option String → Bool
  | none => false
  | some s => s ≠ ""

/-- Python `a or b` on optional strings (`None`/`""` fall through to `b`). -/
def pyOr (a b : Option String) : Option String :=
  if truthy a then a else b

/-- `str.upper()` restricted to the ASCII identifiers used for object names. -/
def pyUpper (s : String) : String := ⟨s.data.map Char.toUpper⟩

/-- `core/sql_render.py` `upper_clean`: replace spaces with underscores and
upper-case. -/
def upper_clean (value : String) : String :=
  pyUpper ⟨value.data.map (fun c => if c = ' ' then '_' else c)⟩

/-! ## Raw blueprint records (dicts loaded from the configuration tables) -/

/-- One entry of a node's `bindings` list: logical field name and physical binding. -/
structure BindingSpec where
  fname : Option String
  binding : Option String
  deriving Repr, DecidableEq

/-- A raw node declaration (`primary_node` / an element of `secondary_nodes`). -/
structure NodeSpec where
  node : Option String
  bindings : List BindingSpec
  load : Option Bool
  deriving Repr, DecidableEq

/-- A raw column declaration of a blueprint. -/
structure ColumnSpec where
  cname : Option String
  binding : Option String
  calias : Option String
  data_type : Option String
  description : Option String
  deriving Repr, DecidableEq

/-- A raw blueprint record as read from the blueprints configuration table. -/
structure Blueprint where
  bid : Option String
  displayName : Option String
  binding_object : Option String
  binding_db : Option String
  binding_schema : Option String
  where_clause : Option String
  delete_condition : Option String
  ingest_time_binding : Option String
  ingest_time : Option String
  columns : List ColumnSpec
  primary_node : NodeSpec
  secondary_nodes : List NodeSpec
  deriving Repr, DecidableEq

/-! ## Canonical table model (`SQLRenderer._normalize_blueprint`) -/

/-- A node's resolved `name` after normalization: the binding values of its key
columns — a scalar when there is exactly one, otherwise the ordered list. -/
inductive ResolvedName where
  | scalar (s : String)
  | multi (ss : List String)
  deriving Repr, DecidableEq

/-- A normalized node: the raw fields plus the resolved `name`. -/
structure NormNode where
  node : Option String
  bindings : List BindingSpec
  load : Option Bool
  resolved : ResolvedName
  deriving Repr, DecidableEq

/-- A normalized column projection. -/
structure NormColumn where
  cname : Option String
  binding : Option String
  target : Option String
  dtype : Option String
  description : Option String
  deriving Repr, DecidableEq

/-- The canonical table model produced by `_normalize_blueprint`. -/
structure TableModel where
  name : Option String
  database : Option String
  tschema : Option String
  where_clause : Option String
  delete_condition : Option String
  ingest_time : Option String
  columns : List NormColumn
  primary_node : NormNode
  secondary_nodes : List NormNode
  deriving Repr, DecidableEq

/-- The non-null binding values of a node's key columns
(`[b.get("binding") for b in bindings if b.get("binding")]`). -/
def bindingValues (bindings : List BindingSpec) : List String :=
  (bindings.filter (fun b => truthy b.binding)).filterMap (fun b => b.binding)

/-- Resolve a node's `name` from its binding values: scalar when exactly one. -/
def resolveName (bindings : List BindingSpec) : ResolvedName :=
  match bindingValues bindings with
  | [v] => ResolvedName.scalar v
  | vs => ResolvedName.multi vs

/-- `SQLRenderer._normalize_blueprint` (core/sql_render.py lines 139-208). -/
def normalize_blueprint (bp : Blueprint) : TableModel :=
  { name := pyOr bp.binding_object bp.displayName
    database := bp.binding_db
    tschema := bp.binding_schema
    where_clause := bp.where_clause
    delete_condition := bp.delete_condition
    ingest_time := pyOr bp.ingest_time_binding (some (bp.ingest_time.getD "INGEST_TIME"))
    columns := bp.columns.map (fun c =>
      { cname := c.cname
        binding := c.binding
        target := pyOr c.calias c.cname
        dtype := c.data_type
        description := c.description })
    primary_node :=
      { node := bp.primary_node.node
        bindings := bp.primary_node.bindings
        load := bp.primary_node.load
        resolved := resolveName bp.primary_node.bindings }
    secondary_nodes := bp.secondary_nodes.map (fun n =>
      { node := n.node
        bindings := n.bindings
        load := n.load
        resolved := resolveName n.bindings }) }

/-! ## Binding validation (`SQLRenderer._validate_bindings`) -/

/-- The accumulated list of missing field bindings, in source order:
columns first, then primary-node keys, then secondary-node keys
(core/sql_render.py lines 218-235). -/
def missingBindings (t : TableModel) : List String :=
  ((t.columns.filter (fun c => ¬ truthy c.binding)).map
      (fun c => c.cname.getD "unknown"))
  ++ ((t.primary_node.bindings.filter (fun b => ¬ truthy b.binding)).map
      (fun b => "primary_node." ++ b.fname.getD "unknown"))
  ++ (t.secondary_nodes.flatMap (fun sn =>
      (sn.bindings.filter (fun b => ¬ truthy b.binding)).map
        (fun b => "secondary_node." ++ sn.node.getD "unknown" ++ "."
                  ++ b.fname.getD "unknown")))

/-- Python `", ".join(xs)`. -/
def joinComma : List String → String
  | [] => ""
  | [x] => x
  | x :: xs => x ++ ", " ++ joinComma xs

/-- `SQLRenderer._validate_bindings` (core/sql_render.py lines 210-238):
missing `database`/`schema` raise immediately; missing field bindings are
accumulated into one error message. -/
def validate_bindings (source : String) (t : TableModel) : Except String Unit :=
  if ¬ truthy t.database then
    Except.error ("Blueprint '" ++ source ++ "' missing binding_db")
  else if ¬ truthy t.tschema then
    Except.error ("Blueprint '" ++ source ++ "' missing binding_schema")
  else
    let missing := missingBindings t
    if missing.isEmpty then Except.ok ()
    else Except.error ("Blueprint '" ++ source ++ "' has missing field bindings: "
                       ++ joinComma missing)

/-- `path` occurs literally inside the error message `msg`. -/
def mentions (msg path : String) : Prop := path.data <:+: msg.data

instance (msg path : String) : Decidable (mentions msg path) := by
  unfold mentions; infer_instance

/-! Concrete sample records used in counterexamples and witnesses. -/

/-- An empty raw node. -/
def emptyNode : NodeSpec := { node := none, bindings := [], load := none }

/-- A raw blueprint with every optional field absent. -/
def emptyBlueprint : Blueprint :=
  { bid := none, displayName := none, binding_object := none, binding_db := none
    binding_schema := none, where_clause := none, delete_condition := none
    ingest_time_binding := none, ingest_time := none, columns := []
    primary_node := emptyNode, secondary_nodes := [] }

/-- A blueprint missing its database binding AND a column binding (used against C2). -/
def c2CexBlueprint : Blueprint :=
  { emptyBlueprint with
      bid := some "bp1", binding_object := some "T", binding_schema := some "S"
      columns := [{ cname := some "c1", binding := none, calias := none
                    data_type := some "VARCHAR", description := none }] }

/-- A fully bound database/schema but three distinct missing field bindings. -/
def c2WitTable : TableModel :=
  normalize_blueprint
    { emptyBlueprint with
        bid := some "bp2", binding_object := some "T", binding_db := some "D"
        binding_schema := some "S"
        columns := [{ cname := some "c1", binding := none, calias := none
                      data_type := none, description := none },
                    { cname := some "c2", binding := some "PHYS_C2", calias := none
                      data_type := none, description := none }]
        primary_node := { node := some "equipment"
                          bindings := [{ fname := some "eq_id", binding := none }]
                          load := none }
        secondary_nodes := [{ node := some "asset"
                              bindings := [{ fname := some "aid", binding := some "" }]
                              load := some true }] }

/-- A blueprint whose binding object is absent (used against C5). -/
def c5CexBlueprint : Blueprint :=
  { emptyBlueprint with displayName := some "Test Asset Register" }

/-- A blueprint whose binding object is the empty string (used against C5). -/
def c5CexBlueprintEmpty : Blueprint :=
  { emptyBlueprint with displayName := some "Test Asset Register"
                        binding_object := some "" }

/-- A blueprint with a proper binding object (C5 witness). -/
def c5WitBlueprint : Blueprint :=
  { emptyBlueprint with displayName := some "Test Asset Register"
                        binding_object := some "TEST_ASSET_REGISTER" }

/-! ## Statement compiler (`SQLRenderer.create_nodes` / `create_edges`) -/

/-- The target location (`get_base_context()["target"]`). -/
structure TargetCfg where
  database : String
  tschema : String
  deriving Repr, DecidableEq

/-- Modelled from the spec: the `create_node.sql` template (under
`backend/static/templates`, not included in `src/`) renders one node-table
statement named `NODE_<node>` in the target location, as drop-and-recreate
when `replace_objects` is set and create-if-absent otherwise. -/
def renderNodeSql (replace : Bool) (tgt : TargetCfg) (node : String) : String :=
  (if replace then "CREATE OR REPLACE TABLE " else "CREATE TABLE IF NOT EXISTS ")
    ++ tgt.database ++ "." ++ tgt.tschema ++ ".NODE_" ++ node

/-- Modelled from the spec: the `create_edge.sql` template (not included in
`src/`) renders one edge-table statement named `EDGE_<primary>_<secondary>`. -/
def renderEdgeSql (replace : Bool) (tgt : TargetCfg) (primary secondary : String) : String :=
  (if replace then "CREATE OR REPLACE TABLE " else "CREATE TABLE IF NOT EXISTS ")
    ++ tgt.database ++ "." ++ tgt.tschema ++ ".EDGE_" ++ primary ++ "_" ++ secondary

/-- The per-secondary-node part of `create_nodes` (core/sql_render.py lines
303-305): one rendered statement per node, reading only `n["node"]`
(a missing name is a `KeyError`). -/
def secondaryNodeStmts (replace : Bool) (tgt : TargetCfg) :
    List NormNode → Except String (List String)
  | [] => Except.ok []
  | n :: rest =>
    match n.node with
    | none => Except.error "KeyError: node"
    | some s => do
        let others ← secondaryNodeStmts replace tgt rest
        Except.ok (renderNodeSql replace tgt (upper_clean s) :: others)

/-- `SQLRenderer.create_nodes` (core/sql_render.py lines 297-306): one
node-table statement for the primary node plus one per secondary node,
never consulting any node's `load` flag. -/
def create_nodes (replace : Bool) (tgt : TargetCfg) (t : TableModel) :
    Except String (List String) :=
  match t.primary_node.node with
  | none => Except.error "KeyError: node"
  | some p => do
      let secs ← secondaryNodeStmts replace tgt t.secondary_nodes
      Except.ok (renderNodeSql replace tgt (upper_clean p) :: secs)

/-- The per-secondary-node part of `create_edges` (core/sql_render.py lines
313-315). -/
def secondaryEdgeStmts (replace : Bool) (tgt : TargetCfg) (primary : String) :
    List NormNode → Except String (List String)
  | [] => Except.ok []
  | n :: rest =>
    match n.node with
    | none => Except.error "KeyError: node"
    | some s => do
        let others ← secondaryEdgeStmts replace tgt primary rest
        Except.ok (renderEdgeSql replace tgt primary (upper_clean s) :: others)

/-- `SQLRenderer.create_edges` (core/sql_render.py lines 308-316): one
edge-table statement per (primary, secondary) pair. -/
def create_edges (replace : Bool) (tgt : TargetCfg) (t : TableModel) :
    Except String (List String) :=
  match t.primary_node.node with
  | none => Except.error "KeyError: node"
  | some p => secondaryEdgeStmts replace tgt (upper_clean p) t.secondary_nodes

/-- `t` with every secondary node's `load` flag replaced by `f`. -/
def withLoads (t : TableModel) (f : Option Bool) : TableModel :=
  { t with secondary_nodes := t.secondary_nodes.map (fun n => { n with load := f }) }

/-! ## Derived object names (`calculate_deployment_summary`) -/

/-- Node-table names derived from the primary and secondary node fields
(api/routes/utilities.py lines 517-540): `NODE_<entity>` for the primary
node and for every secondary node, regardless of its load flag. -/
def nodeNamesFrom (pn : Option String) (sns : List (Option String)) : List String :=
  (match pn with
   | some s => if s ≠ "" then ["NODE_" ++ pyUpper s] else []
   | none => [])
  ++ sns.filterMap (fun o => match o with
      | some s => if s ≠ "" then some ("NODE_" ++ pyUpper s) else none
      | none => none)

/-- Edge-table names (api/routes/utilities.py lines 542-552):
`EDGE_<primary>_<secondary>` for each declared secondary node. -/
def edgeNamesFrom (pn : Option String) (sns : List (Option String)) : List String :=
  match pn with
  | some p =>
    if p ≠ "" then
      sns.filterMap (fun o => match o with
        | some s => if s ≠ "" then some ("EDGE_" ++ pyUpper p ++ "_" ++ pyUpper s)
                    else none
        | none => none)
    else []
  | none => []

/-- Attribute-table name (api/routes/utilities.py lines 554-563):
`ATTR_<primary>_<binding object>_<source>`. -/
def attrNamesFrom (sourceName : String) (bindingObject : String)
    (pn : Option String) : List String :=
  match pn with
  | some p =>
    if p ≠ "" then
      ["ATTR_" ++ pyUpper p ++ "_" ++ pyUpper bindingObject ++ "_" ++ pyUpper sourceName]
    else []
  | none => []

/-- The full derived object name set for one blueprint, as computed by
`calculate_deployment_summary` (api/routes/utilities.py lines 480-563):
stage view / stream / task names prefixed from the binding object, node
tables, edge tables and the attribute table; blueprints without a binding
object are skipped (`none`). -/
def summaryNames (sourceName : String) (bp : Blueprint) : Option (List String) :=
  let bo := bp.binding_object.getD ""
  if bo = "" then none
  else
    let pn := bp.primary_node.node
    let sns := bp.secondary_nodes.map (fun n => n.node)
    some (["VIEW_" ++ pyUpper bo, "STREAM_" ++ pyUpper bo, "TASK_" ++ pyUpper bo]
      ++ nodeNamesFrom pn sns
      ++ edgeNamesFrom pn sns
      ++ attrNamesFrom sourceName bo pn)

/-- The fields of the canonical model that the derived names are built from. -/
def namingFields (bp : Blueprint) : Option String × Option String × List (Option String) :=
  (bp.binding_object, bp.primary_node.node, bp.secondary_nodes.map (fun n => n.node))

/-! ## Full refresh statement and caller-side re-parsing -/

/-- `sub` occurs inside `s` (Python `sub in s`), scanning suffixes. -/
def containsSubAux (sub : List Char) : List Char → Bool
  | [] => sub.isEmpty
  | c :: rest => sub.isPrefixOf (c :: rest) || containsSubAux sub rest

/-- Python `sub in s`. -/
def containsSub (s sub : String) : Bool := containsSubAux sub.data s.data

/-- Python whitespace (the characters `str.strip()` removes). -/
def isPySpace (c : Char) : Bool :=
  c = ' ' || c = '\t' || c = '\n' || c = '\r' || c = '\x0b' || c = '\x0c'

/-- Python `s.strip()`. -/
def pyStrip (s : String) : String :=
  ⟨(((s.data.dropWhile isPySpace).reverse.dropWhile isPySpace).reverse)⟩

/-- Python `s.startswith(pre)`. -/
def pyStartsWith (s pre : String) : Bool := pre.data.isPrefixOf s.data

/-- Python `s.endswith(suf)`. -/
def pyEndsWith (s suf : String) : Bool := suf.data.isSuffixOf s.data

/-- Python `s.split('\n')` over the character list (accumulator holds the
current line reversed). -/
def splitNlAux (cur : List Char) : List Char → List String
  | [] => [⟨cur.reverse⟩]
  | c :: rest =>
    if c = '\n' then (⟨cur.reverse⟩ : String) :: splitNlAux [] rest
    else splitNlAux (c :: cur) rest

/-- Python `s.split('\n')`. -/
def splitNl (s : String) : List String := splitNlAux [] s.data

/-- Python `'\n'.join(xs)`. -/
def joinNl : List String → String
  | [] => ""
  | [x] => x
  | x :: xs => x ++ "\n" ++ joinNl xs

/-- Modelled from the spec: the `full_refresh_mti.sql` template (not included
in `src/`) renders one `TRUNCATE TABLE <t>;` line per target table, then the
line `INSERT ALL`, the insert body lines, and a terminating `FROM ...;` line. -/
def fullRefreshLines (tables : List String) (insertBody : List String)
    (fromLine : String) : List String :=
  (tables.map (fun t => "TRUNCATE TABLE " ++ t ++ ";"))
    ++ ("INSERT ALL" :: insertBody) ++ [fromLine]

/-- `SQLRenderer.full_refresh_mti` (core/sql_render.py lines 351-354) returns
the rendered template as a single string. -/
def full_refresh_mti (tables : List String) (insertBody : List String)
    (fromLine : String) : String :=
  joinNl (fullRefreshLines tables insertBody fromLine)

/-- A stripped line that is a complete truncate statement
(api/routes/blueprints.py line 398). -/
def isTruncLine (l : String) : Bool :=
  pyStartsWith l "TRUNCATE TABLE" && pyEndsWith l ";"

/-- A stripped line that terminates the multi-table insert
(api/routes/blueprints.py line 402). -/
def isFromLine (l : String) : Bool :=
  pyStartsWith l "FROM" && pyEndsWith l ";"

/-- The scanning loop of `_deploy_single_blueprint_streaming`
(api/routes/blueprints.py lines 392-404): collect truncate lines, remember
the index of the `INSERT ALL` line, and stop at the first `FROM ...;` line
seen after it.  Returns (truncate statements, insert start, insert end). -/
def frScanAux (i : Nat) (istart : Option Nat) :
    List String → List String × Option Nat × Option Nat
  | [] => ([], istart, none)
  | line :: rest =>
    let ls := pyStrip line
    if isTruncLine ls then
      let (ts, s, e) := frScanAux (i + 1) istart rest
      (ls :: ts, s, e)
    else if containsSub ls "INSERT ALL" then
      frScanAux (i + 1) (some i) rest
    else if istart.isSome && isFromLine ls then
      ([], istart, some i)
    else
      frScanAux (i + 1) istart rest

/-- The caller-side segmentation of the rendered full-refresh text
(api/routes/blueprints.py lines 388-420): split into lines, scan, and join
`lines[insert_start : insert_end + 1]` back into the insert block. -/
def parseFullRefresh (sql : String) : List String × Option String :=
  let lines := splitNl sql
  let (truncs, istart, iend) := frScanAux 0 none lines
  let insertSql :=
    match istart, iend with
    | some s, some e => some (joinNl ((lines.drop s).take (e + 1 - s)))
    | _, _ => none
  (truncs, insertSql)

/-- One step of the executed full-refresh plan. -/
inductive FullRefreshAction where
  | truncate (sql : String)
  | insertAll (sql : String)
  | warnMissingInsert
  deriving Repr, DecidableEq

/-- The execution plan the deployer derives from the rendered text
(api/routes/blueprints.py lines 406-430): run every recovered truncate
eagerly, then the recovered insert as one block — or emit a warning when the
insert could not be recovered from the text. -/
def fullRefreshPlan (sql : String) : List FullRefreshAction :=
  let (ts, ins) := parseFullRefresh sql
  ts.map FullRefreshAction.truncate
    ++ (match ins with
        | some s => [FullRefreshAction.insertAll s]
        | none => [FullRefreshAction.warnMissingInsert])

/-! Further concrete records for witnesses. -/

/-- A canonical model with a primary node and two secondary nodes with
different load flags (C6 witness). -/
def c6WitTable : TableModel :=
  normalize_blueprint
    { emptyBlueprint with
        bid := some "bp6", binding_object := some "TEST_ASSET_REGISTER"
        binding_db := some "D", binding_schema := some "S"
        primary_node := { node := some "equipment"
                          bindings := [{ fname := some "eq_id", binding := some "EQ_ID" }]
                          load := none }
        secondary_nodes :=
          [{ node := some "asset"
             bindings := [{ fname := some "aid", binding := some "AID" }]
             load := some false },
           { node := some "site"
             bindings := [{ fname := some "sid", binding := some "SID" }]
             load := some true }] }

/-- A sample target location. -/
def c6Target : TargetCfg := { database := "UH", tschema := "STORAGE" }

/-- C9 witness blueprint (full record). -/
def c9BlueprintA : Blueprint :=
  { emptyBlueprint with
      bid := some "bp9", displayName := some "Asset Register"
      binding_object := some "ASSET_REGISTER", binding_db := some "D"
      binding_schema := some "S"
      columns := [{ cname := some "c1", binding := some "P1", calias := none
                    data_type := some "VARCHAR", description := some "first" }]
      primary_node := { node := some "equipment"
                        bindings := [{ fname := some "eq", binding := some "EQ" }]
                        load := none }
      secondary_nodes := [{ node := some "asset"
                            bindings := [{ fname := some "a", binding := some "A" }]
                            load := some true }] }

/-- The same blueprint with unrelated fields changed (display name, column
description, where-clause, load flag): the naming fields are untouched. -/
def c9BlueprintB : Blueprint :=
  { c9BlueprintA with
      displayName := some "Asset Register v2"
      where_clause := some "X > 0"
      columns := [{ cname := some "c1", binding := some "P1", calias := some "C_ONE"
                    data_type := some "NUMBER", description := some "second" }]
      secondary_nodes := [{ node := some "asset"
                            bindings := [{ fname := some "a2", binding := some "A2" }]
                            load := some false }] }

/-! ## Staged deployment orchestrator (`_deploy_model_staged_streaming`) -/

/-- The per-stage completion flags accumulated in `steps_completed`
(api/routes/utilities.py lines 925, 1025, 1148, 1271, 1392, 1395, 1555,
1604-1606); `seed_load` is tri-state: `none` means "not requested". -/
structure StepsCompleted where
  staging : Bool
  data_processing : Bool
  key_storage : Bool
  build_relationships : Bool
  data_storage : Bool
  supporting_artefacts : Bool
  model_deployment : Bool
  seed_load : Option Bool
  deriving Repr, DecidableEq

/-- One streamed progress event (the dict yielded by the generators). -/
structure Event where
  level : String
  step : String
  status : String
  model_id : Option String := none
  blueprint_id : Option String := none
  object_name : Option String := none
  steps : Option StepsCompleted := none
  deriving Repr, DecidableEq

/-- Event constructor shorthand. -/
def mkEvt (level step status : String) (mId : Option String := none)
    (bpid : Option String := none) (obj : Option String := none)
    (steps : Option StepsCompleted := none) : Event :=
  { level := level, step := step, status := status, model_id := mId,
    blueprint_id := bpid, object_name := obj, steps := steps }

/-- Governance configuration of the owning model
(`_get_model_governance_tags`). -/
structure GovCfg where
  domain : Option String
  process : Option String
  pii : Option Bool
  roles : List String
  deriving Repr, DecidableEq

/-- Python `domain or process or pii_flag is not None` (utilities.py 1078). -/
def hasTagCfg (g : GovCfg) : Bool :=
  truthy g.domain || truthy g.process || g.pii.isSome

/-- One deployment unit (a blueprint) together with the outcome of each
external statement execution for it: `true` = the warehouse call succeeded,
`false` = it raised. -/
structure UnitRun where
  blueprint_id : String
  source : String
  bp : Blueprint
  stagingOk : Bool
  streamOk : Bool
  taskCreateOk : Bool
  taskResumeOk : Bool
  tagsOk : Bool
  keyStorageOk : Bool
  buildRelOk : Bool
  dataStorageOk : Bool
  seedOk : Bool
  deriving Repr, DecidableEq

/-- The environment of one `_deploy_model_staged_streaming` call. -/
structure ModelRunEnv where
  model_id : String
  modelType : String
  viewName : String
  gov : GovCfg
  units : List UnitRun
  runFullRefresh : Bool
  preStageRaises : Bool
  modelDeployRaises : Bool
  innerEvents : List Event
  deriving Repr, DecidableEq

/-- `bp_info.get("blueprint", {}).get("binding_object", "")`. -/
def bindingObjectStr (bp : Blueprint) : String := bp.binding_object.getD ""

/-- utilities.py lines 890-891: the stage view object name, when known. -/
def viewNameOf (u : UnitRun) : Option String :=
  if bindingObjectStr u.bp ≠ "" then some ("VIEW_" ++ pyUpper (bindingObjectStr u.bp))
  else none

/-- utilities.py lines 998-999. -/
def streamNameOf (u : UnitRun) : Option String :=
  if bindingObjectStr u.bp ≠ "" then some ("STREAM_" ++ pyUpper (bindingObjectStr u.bp))
  else none

/-- utilities.py line 1000. -/
def taskNameOf (u : UnitRun) : Option String :=
  if bindingObjectStr u.bp ≠ "" then some ("TASK_" ++ pyUpper (bindingObjectStr u.bp))
  else none

/-- utilities.py lines 1053-1062 / 1124-1134: the node names of one unit
(same formula as `calculate_deployment_summary`). -/
def unitNodeNames (u : UnitRun) : List String :=
  nodeNamesFrom u.bp.primary_node.node (u.bp.secondary_nodes.map (fun n => n.node))

/-- utilities.py lines 1176-1185 / 1247-1257. -/
def unitEdgeNames (u : UnitRun) : List String :=
  edgeNamesFrom u.bp.primary_node.node (u.bp.secondary_nodes.map (fun n => n.node))

/-- utilities.py lines 1301-1309 / 1371-1379: the attribute-table name,
available only when the primary node, binding object and source are all
non-empty. -/
def attrNameOpt (sourceName : String) (bp : Blueprint) : Option String :=
  match bp.primary_node.node with
  | some p =>
    if p ≠ "" ∧ bindingObjectStr bp ≠ "" ∧ sourceName ≠ "" then
      some ("ATTR_" ++ pyUpper p ++ "_" ++ pyUpper (bindingObjectStr bp)
            ++ "_" ++ pyUpper sourceName)
    else none
  | none => none

/-- utilities.py lines 1078-1110 etc.: the optional tag / grant log events
emitted after governance is applied to one object. -/
def tagGrantEvts (env : ModelRunEnv) (bpid : Option String) (tagsOk : Bool)
    (tagLabel grantLabel : String) : List Event :=
  (if tagsOk && hasTagCfg env.gov then
    [mkEvt "SUCCESS" "apply_tags" "complete" (some env.model_id) bpid (some tagLabel)]
   else [])
  ++ (if !env.gov.roles.isEmpty then
    [mkEvt "SUCCESS" "apply_grants" "complete" (some env.model_id) bpid (some grantLabel)]
   else [])

/-- Stage 1, staging (utilities.py lines 868-925): per-unit failures emit an
error event; successes are not individually logged; a stage completion event
appears only when every unit succeeded. -/
def stagingBlock (env : ModelRunEnv) : List Event :=
  mkEvt "SUCCESS" "staging" "starting" (some env.model_id)
  :: (env.units.flatMap (fun u =>
       if u.stagingOk then []
       else [mkEvt "ERROR" "staging" "failed" (some env.model_id)
               (some u.blueprint_id) (viewNameOf u)]))
  ++ (if env.units.all (fun u => u.stagingOk) then
       [mkEvt "SUCCESS" "staging" "complete" (some env.model_id)]
      else [])

/-- A unit passes data processing when stream, task creation and task resume
all succeed (utilities.py lines 941-995). -/
def dpUnitOk (u : UnitRun) : Bool := u.streamOk && u.taskCreateOk && u.taskResumeOk

/-- Stage 2, data processing (utilities.py lines 927-1025). -/
def dpBlock (env : ModelRunEnv) : List Event :=
  mkEvt "SUCCESS" "data_processing" "starting" (some env.model_id)
  :: (env.units.flatMap (fun u =>
       if dpUnitOk u then []
       else [mkEvt "ERROR" "data_processing" "failed" (some env.model_id)
               (some u.blueprint_id) (pyOr (streamNameOf u) (taskNameOf u))]))
  ++ (if env.units.all dpUnitOk then
       [mkEvt "SUCCESS" "data_processing" "complete" (some env.model_id)]
      else [])

/-- Stage 3, key storage (utilities.py lines 1027-1148): per node, optional
tag/grant events then a success event; on exception one failure event per
node name of that unit, and the loop continues with the next unit. -/
def ksBlock (env : ModelRunEnv) : List Event :=
  mkEvt "INFO" "key_storage" "starting" (some env.model_id)
  :: env.units.flatMap (fun u =>
       if u.keyStorageOk then
         (unitNodeNames u).flatMap (fun n =>
           tagGrantEvts env (some u.blueprint_id) u.tagsOk "Tag Nodes"
             "Grant access to Nodes"
           ++ [mkEvt "SUCCESS" "key_storage" "complete" (some env.model_id)
                (some u.blueprint_id) (some n)])
       else
         (unitNodeNames u).map (fun n =>
           mkEvt "ERROR" "key_storage" "failed" (some env.model_id)
             (some u.blueprint_id) (some n)))

/-- Stage 4, build relationships (utilities.py lines 1150-1271). -/
def brBlock (env : ModelRunEnv) : List Event :=
  mkEvt "INFO" "build_relationships" "starting" (some env.model_id)
  :: env.units.flatMap (fun u =>
       if u.buildRelOk then
         (unitEdgeNames u).flatMap (fun n =>
           tagGrantEvts env (some u.blueprint_id) u.tagsOk "Tag Edges"
             "Grant access to Edges"
           ++ [mkEvt "SUCCESS" "build_relationships" "complete" (some env.model_id)
                (some u.blueprint_id) (some n)])
       else
         (unitEdgeNames u).map (fun n =>
           mkEvt "ERROR" "build_relationships" "failed" (some env.model_id)
             (some u.blueprint_id) (some n)))

/-- Stage 5, data storage (utilities.py lines 1273-1392). -/
def dsBlock (env : ModelRunEnv) : List Event :=
  mkEvt "INFO" "data_storage" "starting" (some env.model_id)
  :: env.units.flatMap (fun u =>
       if u.dataStorageOk then
         (match attrNameOpt u.source u.bp with
          | some _ => tagGrantEvts env (some u.blueprint_id) u.tagsOk
              "Tag Attributes" "Grant access to Attributes"
          | none => [])
         ++ [mkEvt "SUCCESS" "data_storage" "complete" (some env.model_id)
              (some u.blueprint_id) (attrNameOpt u.source u.bp)]
       else
         [mkEvt "ERROR" "data_storage" "failed" (some env.model_id)
            (some u.blueprint_id) (attrNameOpt u.source u.bp)])

/-- Stage 7, model deployment (utilities.py lines 1397-1553): forwarded inner
events are relabelled with step `model_deployment`; after the inner terminal
complete event, governance events for the view; an exception is caught and
yields one failure event (the run continues). -/
def mdBlock (env : ModelRunEnv) : List Event :=
  mkEvt "INFO" "model_deployment" "starting" (some env.model_id)
  :: (if env.modelDeployRaises then
       [mkEvt "ERROR" "model_deployment" "failed" (some env.model_id)]
      else
       env.innerEvents.flatMap (fun e =>
         { e with
             step := "model_deployment"
             model_id := some env.model_id
             object_name :=
               if e.step = "dimension_view" ∨ e.step = "fact_view" ∨ e.step = "complete"
               then some env.viewName else e.object_name }
         :: (if e.step = "complete" && e.status = "complete" then
              tagGrantEvts env none true ("Tag " ++ env.modelType ++ " view")
                ("Grant access to " ++ env.modelType ++ " view")
             else [])))

/-- utilities.py lines 1410, 1435-1436, 1498-1499. -/
def mdComplete (env : ModelRunEnv) : Bool :=
  !env.modelDeployRaises
    && env.innerEvents.any (fun e => e.step = "complete" && e.status = "complete")

/-- Stage 8, seed load (utilities.py lines 1557-1606): runs only when a full
refresh was requested. -/
def seedBlock (env : ModelRunEnv) : List Event :=
  if env.runFullRefresh then
    mkEvt "INFO" "seed_load" "starting" (some env.model_id)
    :: env.units.flatMap (fun u =>
        if u.seedOk then
          [mkEvt "SUCCESS" "seed_load" "complete" (some env.model_id)
            (some u.blueprint_id) (some (u.blueprint_id ++ "_refresh"))]
        else
          [mkEvt "ERROR" "seed_load" "failed" (some env.model_id)
            (some u.blueprint_id) (some (u.blueprint_id ++ "_refresh"))])
  else []

/-- The `steps_completed` flags at the end of the run. -/
def stepsCompletedOf (env : ModelRunEnv) : StepsCompleted :=
  { staging := env.units.all (fun u => u.stagingOk)
    data_processing := env.units.all dpUnitOk
    key_storage := env.units.all (fun u => u.keyStorageOk)
    build_relationships := env.units.all (fun u => u.buildRelOk)
    data_storage := env.units.all (fun u => u.dataStorageOk)
    supporting_artefacts := true
    model_deployment := mdComplete env
    seed_load := if env.runFullRefresh then some (env.units.all (fun u => u.seedOk))
                 else none }

/-- The terminal event (utilities.py lines 1609-1617). -/
def runCompleteEvt (env : ModelRunEnv) : Event :=
  mkEvt "SUCCESS" "complete" "complete" (some env.model_id) none none
    (some (stepsCompletedOf env))

/-- `_deploy_model_staged_streaming` as the list of events it yields.  Stage 6
(supporting artefacts) emits no events — only its flag is set (lines
1394-1395).  An exception before the stages (line 1619-1628) yields one error
event and re-raises. -/
def deployModelStaged (env : ModelRunEnv) : List Event :=
  if env.preStageRaises then
    [mkEvt "ERROR" "error" "failed" (some env.model_id)]
  else
    stagingBlock env ++ dpBlock env ++ ksBlock env ++ brBlock env ++ dsBlock env
      ++ mdBlock env ++ seedBlock env ++ [runCompleteEvt env]

/-- The warehouse calls attempted by the data-processing stage body for one
unit (utilities.py lines 941-993), in order; an exception aborts the rest. -/
inductive DPAction where
  | runStream | createTask | resumeTask | applyTags | applyGrants
  deriving Repr, DecidableEq

/-- The action trace of the per-unit data-processing body. -/
def dataProcessingActions (u : UnitRun) : List DPAction :=
  DPAction.runStream
  :: (if u.streamOk then
       DPAction.createTask
       :: (if u.taskCreateOk then
            DPAction.resumeTask
            :: (if u.taskResumeOk then
                 (if bindingObjectStr u.bp ≠ "" then
                   [DPAction.applyTags, DPAction.applyGrants]
                  else [])
                else [])
           else [])
      else [])

/-- The position of a stage name in the fixed pipeline order (§4.4);
`none` for non-stage steps such as `apply_tags` / `apply_grants` / `log`. -/
def stageIdx : String → Option Nat
  | "staging" => some 0
  | "data_processing" => some 1
  | "key_storage" => some 2
  | "build_relationships" => some 3
  | "data_storage" => some 4
  | "supporting_artefacts" => some 5
  | "model_deployment" => some 6
  | "seed_load" => some 7
  | "complete" => some 8
  | _ => none

/-! ## The run driver (`event_generator` in `deploy_models_staged`) -/

/-- How one requested model id plays out inside the run loop
(utilities.py lines 1701-1868). -/
inductive ModelOutcome where
  /-- Config lookup finds no dimension/fact: appended to `failed`, loop
  continues (lines 1722-1731). -/
  | notFound (mId : String)
  /-- Blueprint resolution raises `ValueError` OUTSIDE the per-model
  try/except (lines 1783-1787): the exception escapes the whole loop. -/
  | noBlueprints (mId : String) (msg : String)
  /-- The staged generator runs; the model counts as successful exactly when
  a terminal complete event was streamed (lines 1799-1868). -/
  | run (env : ModelRunEnv)
  deriving Repr, DecidableEq

/-- The run loop over the requested models, returning
(successful ids, failed ids, escaped error message). -/
def processModelsAux (succ fail : List String) :
    List ModelOutcome → List String × List String × Option String
  | [] => (succ, fail, none)
  | o :: rest =>
    match o with
    | ModelOutcome.notFound mId => processModelsAux succ (fail ++ [mId]) rest
    | ModelOutcome.noBlueprints _ msg => (succ, fail, some msg)
    | ModelOutcome.run env =>
      if (deployModelStaged env).any
          (fun e => e.step = "complete" && e.status = "complete") then
        processModelsAux (succ ++ [env.model_id]) fail rest
      else
        -- no terminal event (the generator raised or ended early): the
        -- per-model except/else records the model as failed and continues
        processModelsAux succ (fail ++ [env.model_id]) rest

/-- The audit record handed to `persist_deployment_log`
(utilities.py lines 1918-1927). -/
structure AuditRecord where
  status : String
  success_count : Nat
  error_count : Nat
  total_count : Nat
  deriving Repr, DecidableEq

/-- The observable outcome of one staged deployment run. -/
structure RunResult where
  successful : List String
  failed : List String
  errorMessage : Option String
  record : AuditRecord
  persisted : List AuditRecord
  deriving Repr, DecidableEq

/-- The whole endpoint run: the loop, then the `finally` block
(utilities.py lines 1891-1927) which computes the aggregate status and
persists exactly one audit record; `persist_deployment_log`
(core/deployment_logs.py lines 57-126) skips silently when the audit table
is not configured and swallows any insert failure, so persistence itself
never raises. -/
def runLoopResult (preLoopError : Option String) (models : List ModelOutcome) :
    List String × List String × Option String :=
  match preLoopError with
  | some msg => (([] : List String), ([] : List String), some msg)
  | none => processModelsAux [] [] models

/-- The `finally` block's status computation and audit persistence
(utilities.py lines 1891-1927). -/
def runStagedDeployment (preLoopError : Option String) (models : List ModelOutcome)
    (auditConfigured : Bool) (auditInsertOk : Bool) : RunResult :=
  let r := runLoopResult preLoopError models
  let succ := r.1
  let fail := r.2.1
  let err := r.2.2
  let successCount := succ.length
  let failureCount := fail.length
  let errorCount := if failureCount > 0 then failureCount
                    else (if truthy err then 1 else 0)
  let status := if truthy err || failureCount > 0 then
                  (if successCount = 0 then "failed" else "partial")
                else "success"
  let arec : AuditRecord :=
    { status := status, success_count := successCount,
      error_count := errorCount, total_count := models.length }
  { successful := succ, failed := fail, errorMessage := err, record := arec,
    persisted := if auditConfigured && auditInsertOk then [arec] else [] }

/-- The aggregate status mapping exactly as claim C1 words it (`success` if
zero failed units; `failed` if zero successful units; otherwise `partial`) —
written from the spec for comparison against the code's computation. -/
def claimedStatus (successCount failureCount : Nat) : String :=
  if failureCount = 0 then "success"
  else if successCount = 0 then "failed"
  else "partial"

/-! ## Single-blueprint streamed deployment (`_deploy_single_blueprint_streaming`) -/

/-- The environment of one `_deploy_single_blueprint_streaming` call: each
flag tells whether the corresponding warehouse call succeeds. -/
structure SingleRunEnv where
  blueprint_id : String
  source_name : String
  bp : Blueprint
  rendererOk : Bool
  dbExists : Bool
  viewOk : Bool
  streamOk : Bool
  nodesOk : Bool
  edgesOk : Bool
  attrOk : Bool
  mtiOk : Bool
  taskOk : Bool
  resumeOk : Bool
  runFullRefresh : Bool
  refreshOk : Bool
  updateOk : Bool
  stgDb : String
  stgSchema : String
  tgtDb : String
  tgtSchema : String
  deriving Repr, DecidableEq

/-- blueprints.py line 107: the physical binding object is the normalized
model's `name`. -/
def sBindingObject (env : SingleRunEnv) : String :=
  ((normalize_blueprint env.bp).name).getD ""

/-- blueprints.py line 222 / 280: the upper-cased primary node entity. -/
def sPrimaryNode (env : SingleRunEnv) : String :=
  pyUpper ((env.bp.primary_node.node).getD "")

/-- The core of the streamed single-blueprint deployment (blueprints.py lines
88-481): events yielded, the `deployed_objects` tracking list, the object
names whose creating statement actually ran successfully, and the escaping
error (if any).  Tracking appends happen exactly where the source appends:
the stage view is recorded under a `STG_` name (line 171), the primary node
and all edges are recorded BEFORE their statements run (lines 225, 261-263),
and only load-flagged secondaries are recorded (lines 232-235). -/
def runSingleCore (env : SingleRunEnv) :
    List Event × List String × List String × Option String :=
  let e0 := [mkEvt "INFO" "initialization" "starting" none none (some env.blueprint_id)]
  if !env.rendererOk then (e0, [], [], some "renderer initialization failed") else
  let bo := pyUpper (sBindingObject env)
  let e1 := e0 ++ [mkEvt "INFO" "database_validation" "starting" none none (some env.tgtDb)]
  if !env.dbExists then
    (e1, [], [], some ("Target database '" ++ env.tgtDb ++ "' does not exist")) else
  let e2 := e1 ++ [mkEvt "SUCCESS" "database_validation" "complete" none none (some env.tgtDb),
    mkEvt "INFO" "source_validation" "starting" none none (some env.blueprint_id),
    mkEvt "SUCCESS" "source_validation" "complete" none none (some env.blueprint_id),
    mkEvt "INFO" "stage_view" "starting" none none (some ("VIEW_" ++ bo))]
  if !env.viewOk then (e2, [], [], some "stage view creation failed") else
  let tr1 := [env.stgDb ++ "." ++ env.stgSchema ++ ".STG_" ++ bo ++ "_"
              ++ pyUpper env.source_name]
  let ex1 := [env.stgDb ++ "." ++ env.stgSchema ++ ".VIEW_" ++ bo]
  let e3 := e2 ++ [mkEvt "SUCCESS" "stage_view" "complete" none none (some ("VIEW_" ++ bo)),
    mkEvt "INFO" "stream" "starting" none none (some ("STREAM_" ++ bo))]
  if !env.streamOk then (e3, tr1, ex1, some "stream creation failed") else
  let streamN := env.stgDb ++ "." ++ env.stgSchema ++ ".STREAM_" ++ bo
  let tr2 := tr1 ++ [streamN]
  let ex2 := ex1 ++ [streamN]
  let p := sPrimaryNode env
  let primaryN := env.tgtDb ++ "." ++ env.tgtSchema ++ ".NODE_" ++ p
  let e4 := e3 ++ [mkEvt "SUCCESS" "stream" "complete" none none (some ("STREAM_" ++ bo)),
    mkEvt "INFO" "nodes" "starting" none none (some "nodes")]
  let tr3 := tr2 ++ [primaryN]
  if !env.nodesOk then (e4, tr3, ex2, some "node creation failed") else
  let allSecN := env.bp.secondary_nodes.filterMap (fun n =>
    n.node.map (fun s => env.tgtDb ++ "." ++ env.tgtSchema ++ ".NODE_" ++ pyUpper s))
  let loadedSecN := env.bp.secondary_nodes.filterMap (fun n =>
    if n.load.getD true then
      n.node.map (fun s => env.tgtDb ++ "." ++ env.tgtSchema ++ ".NODE_" ++ pyUpper s)
    else none)
  let tr4 := tr3 ++ loadedSecN
  let ex3 := ex2 ++ primaryN :: allSecN
  let edgeN := env.bp.secondary_nodes.filterMap (fun n =>
    n.node.map (fun s => env.tgtDb ++ "." ++ env.tgtSchema ++ ".EDGE_" ++ p
      ++ "_" ++ pyUpper s))
  let e5 := e4 ++ [mkEvt "SUCCESS" "nodes" "complete" none none (some "nodes"),
    mkEvt "INFO" "edges" "starting" none none (some "edges")]
  let tr5 := tr4 ++ edgeN
  if !env.edgesOk then (e5, tr5, ex3, some "edge creation failed") else
  let ex4 := ex3 ++ edgeN
  let tableName := pyUpper (((normalize_blueprint env.bp).name).getD env.blueprint_id)
  let attrN := "ATTR_" ++ p ++ "_" ++ tableName ++ "_" ++ pyUpper env.source_name
  let attrFull := env.tgtDb ++ "." ++ env.tgtSchema ++ "." ++ attrN
  let e6 := e5 ++ [mkEvt "SUCCESS" "edges" "complete" none none (some "edges"),
    mkEvt "INFO" "attributes" "starting" none none (some attrN)]
  if !env.attrOk then (e6, tr5, ex4, some "attribute table creation failed") else
  let tr6 := tr5 ++ [attrFull]
  let ex5 := ex4 ++ [attrFull]
  let e7 := e6 ++ [mkEvt "SUCCESS" "attributes" "complete" none none (some attrN),
    mkEvt "INFO" "mti" "starting" none none (some "multi_table_insert")]
  if !env.mtiOk then (e7, tr6, ex5, some "mti creation failed") else
  let taskN := "TASK_" ++ bo
  let e8 := e7 ++ [mkEvt "SUCCESS" "mti" "complete" none none (some "multi_table_insert"),
    mkEvt "INFO" "task" "starting" none none (some taskN)]
  if !env.taskOk then
    (e8 ++ [mkEvt "ERROR" "task" "failed" none none (some taskN)], tr6, ex5,
     some "Task creation failed") else
  if !env.resumeOk then (e8, tr6, ex5, some "task resume failed") else
  let taskFull := env.stgDb ++ "." ++ env.stgSchema ++ "." ++ taskN
  let tr7 := tr6 ++ [taskFull]
  let ex6 := ex5 ++ [taskFull]
  let e9 := e8 ++ [mkEvt "SUCCESS" "task" "complete" none none (some taskN)]
  if env.runFullRefresh then
    let e10 := e9 ++ [mkEvt "INFO" "full_refresh" "starting" none none
      (some "full_refresh_mti")]
    if !env.refreshOk then (e10, tr7, ex6, some "full refresh failed")
    else (e10 ++ [mkEvt "SUCCESS" "full_refresh" "complete" none none
      (some "full_refresh_mti")], tr7, ex6, none)
  else (e9, tr7, ex6, none)

/-- One attempted blueprint-status update: (blueprint id, recorded object
list, error message). -/
def StatusUpdate := String × List String × Option String

deriving instance Repr, DecidableEq for StatusUpdate

/-- `_update_blueprint_deployed_status` (blueprints.py lines 31-62): the
UPDATE either lands, or its exception is caught and only printed — the
caller never sees a failure. -/
def updateBlueprintDeployedStatus (updateOk : Bool) (u : StatusUpdate) :
    List StatusUpdate :=
  if updateOk then [u] else []

/-- The result of one streamed single-blueprint deployment. -/
structure SingleResult where
  events : List Event
  updates : List StatusUpdate
  persistedUpdates : List StatusUpdate
  outcome : Option String
  executed : List String
  deriving Repr, DecidableEq

/-- `_deploy_single_blueprint_streaming` end to end (blueprints.py lines
483-510): on success, one status update with the tracked objects and no
error, then the complete event; on failure, one status update with the
objects tracked so far and the error message, then the failure event, and
the exception is re-raised (`outcome`). -/
def deploySingleBlueprint (env : SingleRunEnv) : SingleResult :=
  let r := runSingleCore env
  match r.2.2.2 with
  | none =>
    let u : StatusUpdate := (env.blueprint_id, r.2.1, none)
    { events := r.1 ++ [mkEvt "SUCCESS" "complete" "complete" none none
        (some env.blueprint_id)]
      updates := [u]
      persistedUpdates := updateBlueprintDeployedStatus env.updateOk u
      outcome := none
      executed := r.2.2.1 }
  | some msg =>
    let u : StatusUpdate := (env.blueprint_id, r.2.1, some msg)
    { events := r.1 ++ [mkEvt "ERROR" "deployment" "failed" none none
        (some env.blueprint_id)]
      updates := [u]
      persistedUpdates := updateBlueprintDeployedStatus env.updateOk u
      outcome := some msg
      executed := r.2.2.1 }

/-! Concrete run environments for the orchestrator claims. -/

/-- A minimal fully-bound blueprint with one primary node named `n`. -/
def simpleUnitBp (oid : String) (n : String) : Blueprint :=
  { emptyBlueprint with
      bid := some oid, binding_object := some oid, binding_db := some "D"
      binding_schema := some "S"
      primary_node := { node := some n, bindings := [], load := none } }

/-- A unit whose every warehouse call succeeds. -/
def okUnit (bpid : String) (n : String) : UnitRun :=
  { blueprint_id := bpid, source := "sap", bp := simpleUnitBp bpid n
    stagingOk := true, streamOk := true, taskCreateOk := true
    taskResumeOk := true, tagsOk := true, keyStorageOk := true
    buildRelOk := true, dataStorageOk := true, seedOk := true }

/-- No governance configuration. -/
def govNone : GovCfg := { domain := none, process := none, pii := none, roles := [] }

/-- The inner dimension generator's terminal event. -/
def innerComplete : Event := mkEvt "SUCCESS" "complete" "complete"

/-- A one-unit model run where everything succeeds. -/
def envOk : ModelRunEnv :=
  { model_id := "m1", modelType := "dimension", viewName := "V_DIM_M1"
    gov := govNone, units := [okUnit "bp1" "n1"], runFullRefresh := false
    preStageRaises := false, modelDeployRaises := false
    innerEvents := [innerComplete] }

/-- A one-unit model run with full refresh requested, everything succeeding
(used against C4). -/
def envOkRefresh : ModelRunEnv := { envOk with runFullRefresh := true }

/-- Three units where exactly unit 2 fails its key-storage statements
(used for C3). -/
def envC3 : ModelRunEnv :=
  { envOk with
      units := [okUnit "bp1" "n1",
                { okUnit "bp2" "n2" with keyStorageOk := false },
                okUnit "bp3" "n3"] }

/-- A run where model `m1` deploys fully and model `m2`'s blueprint
resolution then raises outside the per-model handler (used against C1). -/
def c1CexModels : List ModelOutcome :=
  [ModelOutcome.run envOk,
   ModelOutcome.noBlueprints "m2"
     "Model 'm2' references blueprints, but none were found in the blueprints configuration."]

/-- The pipeline positions of the stage events of a stream (non-stage steps
such as `apply_tags` are dropped). -/
def stageIdxs (evs : List Event) : List Nat :=
  evs.filterMap (fun e => stageIdx e.step)

/-- A single-blueprint environment where everything succeeds (one secondary
node with `load = true`). -/
def bpSingle : Blueprint :=
  { emptyBlueprint with
      bid := some "bpX", binding_object := some "T", binding_db := some "D"
      binding_schema := some "S"
      primary_node := { node := some "p", bindings := [], load := none }
      secondary_nodes := [{ node := some "s", bindings := [], load := some true }] }

def envSingleOk : SingleRunEnv :=
  { blueprint_id := "bpX", source_name := "sap", bp := bpSingle
    rendererOk := true, dbExists := true, viewOk := true, streamOk := true
    nodesOk := true, edgesOk := true, attrOk := true, mtiOk := true
    taskOk := true, resumeOk := true, runFullRefresh := false
    refreshOk := true, updateOk := true
    stgDb := "UH", stgSchema := "STORAGE", tgtDb := "UH", tgtSchema := "MODEL" }

/-- Same, but the edge creation statement fails (used against C10). -/
def envEdgeFail : SingleRunEnv := { envSingleOk with edgesOk := false }

/-- Same, but the task creation statement fails (used for C8). -/
def envTaskFail : SingleRunEnv := { envSingleOk with taskOk := false }

/-! ## Theorems -/

/-- Anything listed in a comma join is a substring of it. -/
theorem mentions_joinComma {l : List String} {x : String} (hx : x ∈ l) :
    mentions (joinComma l) x := by
  induction l with
  | nil => cases hx
  | cons a t ih =>
    cases t with
    | nil =>
      rcases List.mem_singleton.mp hx with rfl
      exact List.infix_rfl
    | cons b t' =>
      rcases List.mem_cons.mp hx with rfl | hmem
      · show x.data <:+: (x ++ ", " ++ joinComma (b :: t')).data
        have h : x.data <+: (x ++ ", " ++ joinComma (b :: t')).data := by
          simp only [String.data_append, List.append_assoc]
          exact List.prefix_append _ _
        exact h.isInfix
      · have h1 : mentions (joinComma (b :: t')) x := ih hmem
        show x.data <:+: (a ++ ", " ++ joinComma (b :: t')).data
        simp only [String.data_append]
        exact h1.trans (List.suffix_append _ _).isInfix

/-- A substring of `b` is a substring of `a ++ b`. -/
theorem mentions_append_left {a b x : String} (h : mentions b x) :
    mentions (a ++ b) x := by
  show x.data <:+: (a ++ b).data
  rw [String.data_append]
  exact h.trans (List.suffix_append _ _).isInfix

/-- C2 counterexample: a canonical model that is missing both its database
binding and the physical binding of column `c1` fails with an error naming
only `binding_db`; validation stopped at the first violation and the single
error does not list the missing column binding, contradicting the claim that
all missing bindings (database included) are accumulated into one error. -/
theorem c2_first_violation_only :
    validate_bindings "bp1" (normalize_blueprint c2CexBlueprint) =
      Except.error "Blueprint 'bp1' missing binding_db" ∧
    "c1" ∈ missingBindings (normalize_blueprint c2CexBlueprint) ∧
    ¬ mentions "Blueprint 'bp1' missing binding_db" "c1" := by
  refine ⟨rfl, by decide, by decide⟩

/-- C2 (amended): once the database and schema bindings are present,
validation accumulates every missing column / primary-node / secondary-node
binding and fails with one error that lists them all (by column or node
path); it succeeds exactly when no field binding is missing. -/
theorem c2_validation_accumulates (source : String) (t : TableModel)
    (hdb : truthy t.database = true) (hs : truthy t.tschema = true) :
    (missingBindings t = [] → validate_bindings source t = Except.ok ()) ∧
    (missingBindings t ≠ [] → ∃ msg,
      validate_bindings source t = Except.error msg ∧
      ∀ p ∈ missingBindings t, mentions msg p) := by
  constructor
  · intro hnone
    unfold validate_bindings
    simp [hdb, hs, hnone]
  · intro hsome
    refine ⟨"Blueprint '" ++ source ++ "' has missing field bindings: "
            ++ joinComma (missingBindings t), ?_, ?_⟩
    · unfold validate_bindings
      simp [hdb, hs, List.isEmpty_iff, hsome]
    · intro p hp
      exact mentions_append_left (mentions_joinComma hp)

/-- C2 witness: a model with three distinct missing bindings (a column, a
primary-node key, and a secondary-node key) reports all three paths in the
single error produced by validation. -/
theorem c2_validation_accumulates_witness :
    truthy c2WitTable.database = true ∧ truthy c2WitTable.tschema = true ∧
    (missingBindings c2WitTable ≠ [] → ∃ msg,
      validate_bindings "bp2" c2WitTable = Except.error msg ∧
      ∀ p ∈ missingBindings c2WitTable, mentions msg p) :=
  ⟨by decide, by decide,
    (c2_validation_accumulates "bp2" c2WitTable (by decide) (by decide)).2⟩

/-- C5 counterexample: when the binding object name is absent (or empty), the
normalizer falls back to the blueprint's display name for the model's
physical table name, contradicting "never from the display name". -/
theorem c5_display_name_fallback :
    c5CexBlueprint.binding_object = none ∧
    (normalize_blueprint c5CexBlueprint).name = some "Test Asset Register" ∧
    (normalize_blueprint c5CexBlueprint).name = c5CexBlueprint.displayName ∧
    (normalize_blueprint c5CexBlueprintEmpty).name =
      c5CexBlueprintEmpty.displayName := by
  refine ⟨rfl, rfl, rfl, rfl⟩

/-- C5 (amended): the model's physical table name comes from the binding's
object name whenever that name is present and non-empty; only when it is
absent or empty does the normalizer fall back to the display name. -/
theorem c5_physical_name_from_binding (bp : Blueprint) :
    (truthy bp.binding_object = true →
      (normalize_blueprint bp).name = bp.binding_object) ∧
    (truthy bp.binding_object = false →
      (normalize_blueprint bp).name = bp.displayName) := by
  unfold normalize_blueprint pyOr
  constructor <;> intro h <;> simp [h]

/-- C5 witness: with a non-empty binding object the physical name is that
binding object, not the display name. -/
theorem c5_physical_name_from_binding_witness :
    truthy c5WitBlueprint.binding_object = true ∧
    (normalize_blueprint c5WitBlueprint).name = c5WitBlueprint.binding_object :=
  ⟨by decide, (c5_physical_name_from_binding c5WitBlueprint).1 (by decide)⟩

/-- `secondaryNodeStmts` succeeds with one statement per node whenever every
secondary node has a name. -/
theorem secondaryNodeStmts_length (replace : Bool) (tgt : TargetCfg) :
    ∀ ns : List NormNode, (∀ n ∈ ns, (n.node).isSome) →
      ∃ l, secondaryNodeStmts replace tgt ns = Except.ok l ∧ l.length = ns.length := by
  intro ns
  induction ns with
  | nil => exact fun _ => ⟨[], rfl, rfl⟩
  | cons n rest ih =>
    intro h
    obtain ⟨s, hs⟩ := Option.isSome_iff_exists.mp (h n (List.mem_cons_self n rest))
    obtain ⟨l, hl, hlen⟩ := ih (fun m hm => h m (List.mem_cons_of_mem n hm))
    refine ⟨renderNodeSql replace tgt (upper_clean s) :: l, ?_, by simp [hlen]⟩
    simp only [secondaryNodeStmts, hs, hl]
    rfl

/-- `secondaryEdgeStmts` succeeds with one statement per node whenever every
secondary node has a name. -/
theorem secondaryEdgeStmts_length (replace : Bool) (tgt : TargetCfg) (p : String) :
    ∀ ns : List NormNode, (∀ n ∈ ns, (n.node).isSome) →
      ∃ l, secondaryEdgeStmts replace tgt p ns = Except.ok l ∧ l.length = ns.length := by
  intro ns
  induction ns with
  | nil => exact fun _ => ⟨[], rfl, rfl⟩
  | cons n rest ih =>
    intro h
    obtain ⟨s, hs⟩ := Option.isSome_iff_exists.mp (h n (List.mem_cons_self n rest))
    obtain ⟨l, hl, hlen⟩ := ih (fun m hm => h m (List.mem_cons_of_mem n hm))
    refine ⟨renderEdgeSql replace tgt p (upper_clean s) :: l, ?_, by simp [hlen]⟩
    simp only [secondaryEdgeStmts, hs, hl]
    rfl

/-- The load flags play no role in `secondaryNodeStmts`. -/
theorem secondaryNodeStmts_loads (replace : Bool) (tgt : TargetCfg) (f : Option Bool) :
    ∀ ns : List NormNode,
      secondaryNodeStmts replace tgt (ns.map (fun n => { n with load := f })) =
        secondaryNodeStmts replace tgt ns := by
  intro ns
  induction ns with
  | nil => rfl
  | cons n rest ih =>
    cases hn : n.node <;> simp [secondaryNodeStmts, hn, ih]

/-- The load flags play no role in `secondaryEdgeStmts`. -/
theorem secondaryEdgeStmts_loads (replace : Bool) (tgt : TargetCfg) (p : String)
    (f : Option Bool) :
    ∀ ns : List NormNode,
      secondaryEdgeStmts replace tgt p (ns.map (fun n => { n with load := f })) =
        secondaryEdgeStmts replace tgt p ns := by
  intro ns
  induction ns with
  | nil => rfl
  | cons n rest ih =>
    cases hn : n.node <;> simp [secondaryEdgeStmts, hn, ih]

/-- C6: for a canonical model with a named primary node and `k` named
secondary nodes, key-storage generation produces exactly `1 + k` node-table
statements (every secondary node counted regardless of its load flag — the
outputs are invariant under rewriting all load flags), relationship
generation produces exactly `k` edge statements, and zero secondary nodes
yield zero edge statements rather than an error. -/
theorem c6_node_and_edge_statement_counts (replace : Bool) (tgt : TargetCfg)
    (t : TableModel) (hp : (t.primary_node.node).isSome)
    (hs : ∀ n ∈ t.secondary_nodes, (n.node).isSome) :
    (∃ ls, create_nodes replace tgt t = Except.ok ls ∧
       ls.length = 1 + t.secondary_nodes.length) ∧
    (∃ es, create_edges replace tgt t = Except.ok es ∧
       es.length = t.secondary_nodes.length) ∧
    (t.secondary_nodes = [] → create_edges replace tgt t = Except.ok []) ∧
    (∀ f, create_nodes replace tgt (withLoads t f) = create_nodes replace tgt t ∧
          create_edges replace tgt (withLoads t f) = create_edges replace tgt t) := by
  obtain ⟨p, hpn⟩ := Option.isSome_iff_exists.mp hp
  obtain ⟨l, hl, hlen⟩ := secondaryNodeStmts_length replace tgt t.secondary_nodes hs
  obtain ⟨e, he, helen⟩ :=
    secondaryEdgeStmts_length replace tgt (upper_clean p) t.secondary_nodes hs
  refine ⟨⟨renderNodeSql replace tgt (upper_clean p) :: l, ?_, by simp [hlen]; omega⟩,
          ⟨e, ?_, helen⟩, ?_, ?_⟩
  · simp only [create_nodes, hpn, hl]
    rfl
  · simp [create_edges, hpn, he]
  · intro hnil
    simp [create_edges, hpn, hnil, secondaryEdgeStmts]
  · intro f
    constructor
    · simp [create_nodes, withLoads, hpn, secondaryNodeStmts_loads]
    · simp [create_edges, withLoads, hpn, secondaryEdgeStmts_loads]

/-- C6 witness: a model with two secondary nodes (one with `load = false`)
yields three node statements and two edge statements; the same model with no
secondary nodes yields zero edge statements. -/
theorem c6_node_and_edge_statement_counts_witness :
    ((c6WitTable.primary_node.node).isSome ∧
      ∀ n ∈ c6WitTable.secondary_nodes, (n.node).isSome) ∧
    (∃ ls, create_nodes true c6Target c6WitTable = Except.ok ls ∧
       ls.length = 1 + c6WitTable.secondary_nodes.length) ∧
    (∃ es, create_edges true c6Target c6WitTable = Except.ok es ∧
       es.length = c6WitTable.secondary_nodes.length) :=
  ⟨⟨by decide, by decide⟩,
    (c6_node_and_edge_statement_counts true c6Target c6WitTable
      (by decide) (by decide)).1,
    (c6_node_and_edge_statement_counts true c6Target c6WitTable
      (by decide) (by decide)).2.1⟩

/-- C9: the derived object names (stage view `VIEW_*`, stream `STREAM_*`,
task `TASK_*`, node tables `NODE_*`, edge tables `EDGE_<p>_<s>`, attribute
table `ATTR_<p>_<table>_<source>`) are a deterministic function of the
canonical model's naming fields: two blueprint records that agree on the
binding object and the node entity names yield byte-identical derived name
sets, whatever their other fields are — in particular recompiling the same
unchanged model yields identical names. -/
theorem c9_derived_names_deterministic (sourceName : String) (bp1 bp2 : Blueprint)
    (h : namingFields bp1 = namingFields bp2) :
    summaryNames sourceName bp1 = summaryNames sourceName bp2 := by
  unfold namingFields at h
  obtain ⟨h1, h23⟩ := Prod.ext_iff.mp h
  obtain ⟨h2, h3⟩ := Prod.ext_iff.mp h23
  simp only at h1 h2 h3
  unfold summaryNames
  rw [h1, h2, h3]

/-- C9 witness: two records that differ in display name, column aliases,
types, descriptions, where-clause, key bindings and load flags — but not in
the naming fields — produce identical derived name sets. -/
theorem c9_derived_names_deterministic_witness :
    namingFields c9BlueprintA = namingFields c9BlueprintB ∧
    c9BlueprintA ≠ c9BlueprintB ∧
    summaryNames "sap" c9BlueprintA = summaryNames "sap" c9BlueprintB :=
  ⟨by decide, by decide,
    c9_derived_names_deterministic "sap" c9BlueprintA c9BlueprintB (by decide)⟩

/-- Splitting characters with no newline yields a single line. -/
theorem splitNlAux_no_nl : ∀ (cs : List Char) (cur : List Char), '\n' ∉ cs →
    splitNlAux cur cs = [⟨cur.reverse ++ cs⟩] := by
  intro cs
  induction cs with
  | nil => intro cur _; simp [splitNlAux]
  | cons c rest ih =>
    intro cur h
    have hc : ¬ c = '\n' := fun hc => h (hc ▸ List.mem_cons_self c rest)
    have hr : '\n' ∉ rest := fun hm => h (List.mem_cons_of_mem c hm)
    simp only [splitNlAux, if_neg hc, ih (c :: cur) hr]
    simp

/-- Splitting at the first newline separates the first line. -/
theorem splitNlAux_append_nl : ∀ (cs1 : List Char) (cur cs2 : List Char), '\n' ∉ cs1 →
    splitNlAux cur (cs1 ++ '\n' :: cs2) = (⟨cur.reverse ++ cs1⟩ : String) :: splitNlAux [] cs2 := by
  intro cs1
  induction cs1 with
  | nil => intro cur cs2 _; simp [splitNlAux]
  | cons c rest ih =>
    intro cur cs2 h
    have hc : ¬ c = '\n' := fun hc => h (hc ▸ List.mem_cons_self c rest)
    have hr : '\n' ∉ rest := fun hm => h (List.mem_cons_of_mem c hm)
    simp only [List.cons_append, splitNlAux, if_neg hc, List.append_eq]
    rw [ih (c :: cur) cs2 hr]
    simp

/-- Python `split('\n')` inverts `'\n'.join(...)` when no line contains a
newline. -/
theorem splitNl_joinNl : ∀ lines : List String, lines ≠ [] →
    (∀ l ∈ lines, '\n' ∉ l.data) → splitNl (joinNl lines) = lines := by
  intro lines
  induction lines with
  | nil => intro h _; exact absurd rfl h
  | cons x rest ih =>
    intro _ h
    have hx : '\n' ∉ x.data := h x (List.mem_cons_self x rest)
    cases rest with
    | nil =>
      show splitNlAux [] x.data = [x]
      rw [splitNlAux_no_nl x.data [] hx]
      simp
    | cons y rest' =>
      have hrest : ∀ l ∈ y :: rest', '\n' ∉ l.data :=
        fun l hl => h l (List.mem_cons_of_mem x hl)
      show splitNlAux [] (joinNl (x :: y :: rest')).data = x :: y :: rest'
      have hdata : (joinNl (x :: y :: rest')).data =
          x.data ++ '\n' :: (joinNl (y :: rest')).data := by
        show (x ++ "\n" ++ joinNl (y :: rest')).data = _
        simp [String.data_append]
      rw [hdata, splitNlAux_append_nl x.data [] _ hx]
      simp only [List.reverse_nil, List.nil_append]
      have := ih (by simp) hrest
      show (⟨x.data⟩ : String) :: splitNl (joinNl (y :: rest')) = _
      rw [this]

/-- Scanning a block of well-shaped truncate lines collects them all. -/
theorem frScanAux_trunc_block : ∀ (ts more : List String) (i : Nat) (st : Option Nat),
    (∀ l ∈ ts, pyStrip l = l ∧ isTruncLine l = true) →
    frScanAux i st (ts ++ more) =
      ((ts ++ (frScanAux (i + ts.length) st more).1,
        (frScanAux (i + ts.length) st more).2.1,
        (frScanAux (i + ts.length) st more).2.2)) := by
  intro ts
  induction ts with
  | nil => intro more i st _; simp
  | cons a rest ih =>
    intro more i st h
    obtain ⟨ha1, ha2⟩ := h a (List.mem_cons_self a rest)
    have hrest := fun l hl => h l (List.mem_cons_of_mem a hl)
    simp only [List.cons_append, frScanAux, ha1, ha2, if_pos]
    simp only [List.append_eq]
    rw [ih more (i + 1) st hrest]
    simp only [List.length_cons]
    have hidx : i + 1 + rest.length = i + (rest.length + 1) := by omega
    rw [hidx]

/-- A rendered truncate line always matches the deployer's truncate shape. -/
theorem isTruncLine_truncOf (t : String) :
    isTruncLine ("TRUNCATE TABLE " ++ t ++ ";") = true := by
  unfold isTruncLine pyStartsWith pyEndsWith
  refine Bool.and_eq_true_iff.mpr ⟨?_, ?_⟩
  · refine List.isPrefixOf_iff_prefix.mpr ?_
    have h0 : ("TRUNCATE TABLE").data <+: ("TRUNCATE TABLE ").data := by decide
    have h1 : ("TRUNCATE TABLE ").data <+:
        ("TRUNCATE TABLE " ++ t ++ ";").data := by
      simp only [String.data_append, List.append_assoc]
      exact List.prefix_append _ _
    exact h0.trans h1
  · refine List.isSuffixOf_iff_suffix.mpr ?_
    show (";").data <:+ ("TRUNCATE TABLE " ++ t ++ ";").data
    simp only [String.data_append]
    exact List.suffix_append _ _

/-- Scanning the `INSERT ALL` line records its index. -/
theorem frScanAux_insert_line (i : Nat) (st : Option Nat) (rest : List String) :
    frScanAux i st ("INSERT ALL" :: rest) = frScanAux (i + 1) (some i) rest := by
  have h1 : pyStrip "INSERT ALL" = "INSERT ALL" := by decide
  have h2 : isTruncLine "INSERT ALL" = false := by decide
  have h3 : containsSub "INSERT ALL" "INSERT ALL" = true := by decide
  simp [frScanAux, h1, h2, h3]

/-- Scanning a block of insert-body lines leaves the state untouched. -/
theorem frScanAux_body_block : ∀ (body more : List String) (i s : Nat),
    (∀ l ∈ body, isTruncLine (pyStrip l) = false ∧
      containsSub (pyStrip l) "INSERT ALL" = false ∧
      isFromLine (pyStrip l) = false) →
    frScanAux i (some s) (body ++ more) = frScanAux (i + body.length) (some s) more := by
  intro body
  induction body with
  | nil => intro more i s _; simp
  | cons a rest ih =>
    intro more i s h
    obtain ⟨h1, h2, h3⟩ := h a (List.mem_cons_self a rest)
    have hrest := fun l hl => h l (List.mem_cons_of_mem a hl)
    simp only [List.cons_append, frScanAux, h1, h2, h3, Option.isSome_some,
      Bool.true_and, if_neg, Bool.false_eq_true, not_false_eq_true,
      List.append_eq]
    rw [ih more (i + 1) s hrest]
    congr 1
    simp [List.length_cons]
    omega

/-- Scanning the terminating `FROM ...;` line stops with its index. -/
theorem frScanAux_from_line (i s : Nat) (f : String) (rest : List String)
    (h1 : isTruncLine (pyStrip f) = false)
    (h2 : containsSub (pyStrip f) "INSERT ALL" = false)
    (h3 : isFromLine (pyStrip f) = true) :
    frScanAux i (some s) (f :: rest) = ([], some s, some i) := by
  simp [frScanAux, h1, h2, h3]

/-- C7 (amended): the compiler returns the full-refresh statement as a single
text; the deployer recovers the truncate sub-statements and the single
multi-table-insert block by re-parsing that text line by line (truncates =
stripped `TRUNCATE TABLE ...;` lines, insert = the lines from `INSERT ALL`
through the first following `FROM ...;`), then runs the truncations eagerly
and the insert as one block.  For any well-shaped render this line scan
recovers exactly the original segments. -/
theorem c7_segments_recovered_by_reparsing (tables body : List String)
    (fromLine : String)
    (htr : ∀ t ∈ tables,
      pyStrip ("TRUNCATE TABLE " ++ t ++ ";") = "TRUNCATE TABLE " ++ t ++ ";" ∧
      '\n' ∉ t.data)
    (hb : ∀ l ∈ body, isTruncLine (pyStrip l) = false ∧
      containsSub (pyStrip l) "INSERT ALL" = false ∧
      isFromLine (pyStrip l) = false ∧ '\n' ∉ l.data)
    (hf : isTruncLine (pyStrip fromLine) = false ∧
      containsSub (pyStrip fromLine) "INSERT ALL" = false ∧
      isFromLine (pyStrip fromLine) = true ∧ '\n' ∉ fromLine.data) :
    parseFullRefresh (full_refresh_mti tables body fromLine) =
      (tables.map (fun t => "TRUNCATE TABLE " ++ t ++ ";"),
       some (joinNl ("INSERT ALL" :: (body ++ [fromLine])))) := by
  set truncLines := tables.map (fun t => "TRUNCATE TABLE " ++ t ++ ";") with htl
  have hshape : fullRefreshLines tables body fromLine =
      truncLines ++ ("INSERT ALL" :: (body ++ [fromLine])) := by
    unfold fullRefreshLines
    simp [htl]
  have hnl : ∀ l ∈ fullRefreshLines tables body fromLine, '\n' ∉ l.data := by
    intro l hl
    rw [hshape] at hl
    rcases List.mem_append.mp hl with h' | h'
    · obtain ⟨t, ht, rfl⟩ := List.mem_map.mp h'
      intro hmem
      simp only [String.data_append, List.mem_append] at hmem
      rcases hmem with (hy | hy) | hx
      · exact absurd hy (by decide)
      · exact absurd hy (htr t ht).2
      · exact absurd hx (by decide)
    · rcases List.mem_cons.mp h' with rfl | hbm
      · decide
      · rcases List.mem_append.mp hbm with hbody | hlast
        · exact (hb l hbody).2.2.2
        · rw [List.mem_singleton.mp hlast]
          exact hf.2.2.2
  have hne : fullRefreshLines tables body fromLine ≠ [] := by
    rw [hshape]
    simp
  have hsplit : splitNl (full_refresh_mti tables body fromLine) =
      fullRefreshLines tables body fromLine :=
    splitNl_joinNl _ hne hnl
  have htrunc : ∀ l ∈ truncLines, pyStrip l = l ∧ isTruncLine l = true := by
    intro l hl
    obtain ⟨t, ht, rfl⟩ := List.mem_map.mp hl
    exact ⟨(htr t ht).1, isTruncLine_truncOf t⟩
  have hbody : ∀ l ∈ body, isTruncLine (pyStrip l) = false ∧
      containsSub (pyStrip l) "INSERT ALL" = false ∧
      isFromLine (pyStrip l) = false :=
    fun l hl => ⟨(hb l hl).1, (hb l hl).2.1, (hb l hl).2.2.1⟩
  have hscan : frScanAux 0 none (fullRefreshLines tables body fromLine) =
      (truncLines, some truncLines.length,
       some (truncLines.length + 1 + body.length)) := by
    rw [hshape, frScanAux_trunc_block truncLines _ 0 none htrunc]
    rw [Nat.zero_add, frScanAux_insert_line,
        frScanAux_body_block body [fromLine] _ _ hbody,
        frScanAux_from_line _ _ fromLine [] hf.1 hf.2.1 hf.2.2.1]
    simp
  have hlen : truncLines.length = tables.length := by simp [htl]
  have hdrop : (fullRefreshLines tables body fromLine).drop truncLines.length =
      "INSERT ALL" :: (body ++ [fromLine]) := by
    rw [hshape]
    exact List.drop_left _ _
  have htake : (("INSERT ALL" :: (body ++ [fromLine])).take
      (truncLines.length + 1 + body.length + 1 - truncLines.length)) =
      "INSERT ALL" :: (body ++ [fromLine]) := by
    refine List.take_of_length_le ?_
    simp
    omega
  show (let lines := splitNl (full_refresh_mti tables body fromLine)
        let (truncs, istart, iend) := frScanAux 0 none lines
        let insertSql :=
          match istart, iend with
          | some s, some e => some (joinNl ((lines.drop s).take (e + 1 - s)))
          | _, _ => none
        (truncs, insertSql)) = _
  rw [hsplit]
  simp only [hscan]
  simp only [hdrop, htake]

/-! Projection lemmas for the event constructor. -/

@[simp] theorem mkEvt_level (l s st : String) (m b o : Option String)
    (sc : Option StepsCompleted) : (mkEvt l s st m b o sc).level = l := rfl

@[simp] theorem mkEvt_step (l s st : String) (m b o : Option String)
    (sc : Option StepsCompleted) : (mkEvt l s st m b o sc).step = s := rfl

@[simp] theorem mkEvt_status (l s st : String) (m b o : Option String)
    (sc : Option StepsCompleted) : (mkEvt l s st m b o sc).status = st := rfl

@[simp] theorem mkEvt_model_id (l s st : String) (m b o : Option String)
    (sc : Option StepsCompleted) : (mkEvt l s st m b o sc).model_id = m := rfl

@[simp] theorem mkEvt_blueprint_id (l s st : String) (m b o : Option String)
    (sc : Option StepsCompleted) : (mkEvt l s st m b o sc).blueprint_id = b := rfl

@[simp] theorem mkEvt_object_name (l s st : String) (m b o : Option String)
    (sc : Option StepsCompleted) : (mkEvt l s st m b o sc).object_name = o := rfl

@[simp] theorem mkEvt_steps (l s st : String) (m b o : Option String)
    (sc : Option StepsCompleted) : (mkEvt l s st m b o sc).steps = sc := rfl

/-- C1 counterexample: a run whose first model deploys successfully and whose
second model's blueprint resolution raises outside the per-model handler
ends with zero failed units in the audit record, yet the persisted status is
`partial` — the claim's mapping ("success if there are zero failed units")
gives `success` for the same counts. -/
theorem c1_status_not_by_unit_counts_alone :
    (runStagedDeployment none c1CexModels true true).failed = [] ∧
    (runStagedDeployment none c1CexModels true true).successful = ["m1"] ∧
    truthy (runStagedDeployment none c1CexModels true true).errorMessage = true ∧
    (runStagedDeployment none c1CexModels true true).record.status = "partial" ∧
    claimedStatus (runStagedDeployment none c1CexModels true true).successful.length
      (runStagedDeployment none c1CexModels true true).failed.length = "success" ∧
    ("partial" : String) ≠ "success" := by
  refine ⟨by decide, by decide, by decide, by decide, by decide, by decide⟩

/-- C1 (amended): when the audit table is configured and its insert succeeds,
every staged deployment run — however it ends, including a pre-loop
exception — persists exactly one audit record; its status also reflects
whether a top-level error escaped: `success` iff no top-level error and zero
failed units; `failed` iff zero successful units and (a top-level error or at
least one failed unit); otherwise `partial`; and persistence is a total step
that never raises past the deployment call. -/
theorem c1_audit_always_persisted (preLoopError : Option String)
    (models : List ModelOutcome) (cfg ins : Bool)
    (hcfg : cfg = true) (hins : ins = true) :
    (runStagedDeployment preLoopError models cfg ins).persisted =
      [(runStagedDeployment preLoopError models cfg ins).record] ∧
    (runStagedDeployment preLoopError models cfg ins).record.success_count =
      (runStagedDeployment preLoopError models cfg ins).successful.length ∧
    ((runStagedDeployment preLoopError models cfg ins).record.status = "success" ∨
     (runStagedDeployment preLoopError models cfg ins).record.status = "partial" ∨
     (runStagedDeployment preLoopError models cfg ins).record.status = "failed") ∧
    ((runStagedDeployment preLoopError models cfg ins).record.status = "success" ↔
      (truthy (runStagedDeployment preLoopError models cfg ins).errorMessage = false ∧
       (runStagedDeployment preLoopError models cfg ins).failed = [])) ∧
    ((runStagedDeployment preLoopError models cfg ins).record.status = "failed" ↔
      ((truthy (runStagedDeployment preLoopError models cfg ins).errorMessage = true ∨
        (runStagedDeployment preLoopError models cfg ins).failed ≠ []) ∧
       (runStagedDeployment preLoopError models cfg ins).successful = [])) := by
  subst hcfg hins
  rcases hr : runLoopResult preLoopError models with ⟨succ, fail, err⟩
  simp only [runStagedDeployment, hr]
  refine ⟨by simp, by trivial, ?_, ?_, ?_⟩ <;>
    cases he : truthy err <;> rcases fail with _ | ⟨f0, ft⟩ <;>
      rcases succ with _ | ⟨s0, st'⟩ <;> simp [he]

/-- Unfolded event list of a run that reaches the stages. -/
theorem deployModelStaged_eq (env : ModelRunEnv) (hpre : env.preStageRaises = false) :
    deployModelStaged env =
      stagingBlock env ++ dpBlock env ++ ksBlock env ++ brBlock env ++ dsBlock env
        ++ mdBlock env ++ seedBlock env ++ [runCompleteEvt env] := by
  simp [deployModelStaged, hpre]

/-- The terminal complete event is always streamed when the stages run. -/
theorem runComplete_mem (env : ModelRunEnv) (hpre : env.preStageRaises = false) :
    runCompleteEvt env ∈ deployModelStaged env := by
  rw [deployModelStaged_eq env hpre]
  simp

/-- Hence the driver's completion check always fires for such a run. -/
theorem deploy_any_complete (env : ModelRunEnv) (hpre : env.preStageRaises = false) :
    (deployModelStaged env).any
      (fun e => e.step = "complete" && e.status = "complete") = true :=
  List.any_eq_true.mpr ⟨runCompleteEvt env, runComplete_mem env hpre,
    by simp [runCompleteEvt]⟩

/-- Key-storage events sit inside the full stream. -/
theorem mem_deploy_of_mem_ks (env : ModelRunEnv) (hpre : env.preStageRaises = false)
    {e : Event} (he : e ∈ ksBlock env) : e ∈ deployModelStaged env := by
  rw [deployModelStaged_eq env hpre]
  simp only [List.mem_append]
  tauto

/-- C3 counterexample: three units where exactly unit 2's key-storage
statements raise — the failure is isolated (one failure event for unit 2,
units 1 and 3 complete the stage) and the run still emits its terminal
complete event, so the model is counted successful and the run's aggregate
status is `success`, not the claimed `partial`. -/
theorem c3_one_unit_failure_status_success :
    ((deployModelStaged envC3).filter
        (fun e => e.step = "key_storage" && e.status = "failed")).length = 1 ∧
    ((deployModelStaged envC3).filter
        (fun e => e.step = "key_storage" && e.status = "failed")).all
      (fun e => e.blueprint_id = some "bp2") = true ∧
    (deployModelStaged envC3).any
      (fun e => e.step = "key_storage" && e.status = "complete"
        && e.blueprint_id = some "bp1") = true ∧
    (deployModelStaged envC3).any
      (fun e => e.step = "key_storage" && e.status = "complete"
        && e.blueprint_id = some "bp3") = true ∧
    (stepsCompletedOf envC3).key_storage = false ∧
    (stepsCompletedOf envC3).data_storage = true ∧
    (stepsCompletedOf envC3).model_deployment = true ∧
    (runStagedDeployment none [ModelOutcome.run envC3] true true).successful = ["m1"] ∧
    (runStagedDeployment none [ModelOutcome.run envC3] true true).failed = [] ∧
    (runStagedDeployment none [ModelOutcome.run envC3] true true).record.status
      = "success" ∧
    ("success" : String) ≠ "partial" := by
  refine ⟨by decide, by decide, by decide, by decide, by decide, by decide,
    by decide, by decide, by decide, by decide, by decide⟩

/-- C3 (amended): when one unit's key-storage statements raise, a failure
event scoped to that unit and stage is emitted, the stage's complete flag is
false, every other unit still receives its per-node success events in the
same stage, and the run still reaches its terminal complete event — so the
model is counted successful and the aggregate status of the run is `success`
(per-stage failures are recorded only in the stage flags, not in the
success/failure unit counts). -/
theorem c3_failure_isolation (env : ModelRunEnv) (u : UnitRun)
    (hpre : env.preStageRaises = false) (hu : u ∈ env.units)
    (hfail : u.keyStorageOk = false) (hnodes : unitNodeNames u ≠ []) :
    (∃ e ∈ deployModelStaged env, e.step = "key_storage" ∧ e.status = "failed" ∧
       e.blueprint_id = some u.blueprint_id) ∧
    (stepsCompletedOf env).key_storage = false ∧
    (∀ v ∈ env.units, v.keyStorageOk = true → ∀ n ∈ unitNodeNames v,
       ∃ e ∈ deployModelStaged env, e.step = "key_storage" ∧ e.status = "complete" ∧
         e.blueprint_id = some v.blueprint_id ∧ e.object_name = some n) ∧
    (∃ e ∈ deployModelStaged env, e.step = "complete" ∧ e.status = "complete") ∧
    (runStagedDeployment none [ModelOutcome.run env] true true).record.status
      = "success" := by
  obtain ⟨n, hn⟩ := List.exists_mem_of_ne_nil _ hnodes
  refine ⟨?_, ?_, ?_, ?_, ?_⟩
  · refine ⟨mkEvt "ERROR" "key_storage" "failed" (some env.model_id)
      (some u.blueprint_id) (some n), mem_deploy_of_mem_ks env hpre ?_,
      by simp, by simp, by simp⟩
    refine List.mem_cons.mpr (Or.inr (List.mem_flatMap.mpr ⟨u, hu, ?_⟩))
    simp only [hfail, Bool.false_eq_true, if_false]
    exact List.mem_map.mpr ⟨n, hn, rfl⟩
  · simp only [stepsCompletedOf]
    rw [List.all_eq_false]
    exact ⟨u, hu, by simp [hfail]⟩
  · intro v hv hvok m hm
    refine ⟨mkEvt "SUCCESS" "key_storage" "complete" (some env.model_id)
      (some v.blueprint_id) (some m), mem_deploy_of_mem_ks env hpre ?_,
      by simp, by simp, by simp, by simp⟩
    refine List.mem_cons.mpr (Or.inr (List.mem_flatMap.mpr ⟨v, hv, ?_⟩))
    simp only [hvok, if_true]
    exact List.mem_flatMap.mpr ⟨m, hm, by simp⟩
  · exact ⟨runCompleteEvt env, runComplete_mem env hpre,
      by simp [runCompleteEvt], by simp [runCompleteEvt]⟩
  · have hany := deploy_any_complete env hpre
    simp [runStagedDeployment, runLoopResult, processModelsAux, hany, truthy]

/-- C3 witness: the amended theorem applied to the three-unit scenario. -/
theorem c3_failure_isolation_witness :
    envC3.preStageRaises = false ∧
    ({ okUnit "bp2" "n2" with keyStorageOk := false } ∈ envC3.units) ∧
    (runStagedDeployment none [ModelOutcome.run envC3] true true).record.status
      = "success" :=
  ⟨by decide, by decide,
    (c3_failure_isolation envC3 { okUnit "bp2" "n2" with keyStorageOk := false }
      (by decide) (by decide) (by decide) (by decide)).2.2.2.2⟩

/-- The governance log events carry only `apply_tags` / `apply_grants` steps. -/
theorem tagGrantEvts_step (env : ModelRunEnv) (bpid : Option String)
    (tagsOk : Bool) (tl gl : String) :
    ∀ e ∈ tagGrantEvts env bpid tagsOk tl gl,
      e.step = "apply_tags" ∨ e.step = "apply_grants" := by
  intro e he
  simp only [tagGrantEvts, List.mem_append] at he
  rcases he with h | h <;> split_ifs at h <;> simp only [List.mem_singleton,
    List.not_mem_nil] at h <;> first
    | exact absurd h (fun hf => hf)
    | (subst h; simp)

/-- Every staging-stage event has step `staging`. -/
theorem stagingBlock_step (env : ModelRunEnv) :
    ∀ e ∈ stagingBlock env, e.step = "staging" := by
  intro e he
  simp only [stagingBlock, List.mem_cons, List.mem_append, List.mem_flatMap] at he
  rcases he with (rfl | ⟨u, hu, hee⟩) | h
  · simp
  · cases hs : u.stagingOk <;> simp [hs] at hee
    subst hee; simp
  · split_ifs at h <;> simp only [List.mem_singleton, List.not_mem_nil] at h
    subst h; simp

/-- Every data-processing-stage event has step `data_processing`. -/
theorem dpBlock_step (env : ModelRunEnv) :
    ∀ e ∈ dpBlock env, e.step = "data_processing" := by
  intro e he
  simp only [dpBlock, List.mem_cons, List.mem_append, List.mem_flatMap] at he
  rcases he with (rfl | ⟨u, hu, hee⟩) | h
  · simp
  · cases hs : dpUnitOk u <;> simp [hs] at hee
    subst hee; simp
  · split_ifs at h <;> simp only [List.mem_singleton, List.not_mem_nil] at h
    subst h; simp

/-- Key-storage events are `key_storage` or governance log events. -/
theorem ksBlock_step (env : ModelRunEnv) :
    ∀ e ∈ ksBlock env, e.step = "key_storage" ∨ e.step = "apply_tags" ∨
      e.step = "apply_grants" := by
  intro e he
  simp only [ksBlock, List.mem_cons, List.mem_flatMap] at he
  rcases he with rfl | ⟨u, hu, hee⟩
  · left; simp
  · cases hs : u.keyStorageOk <;> simp only [hs, Bool.false_eq_true, if_false,
      if_true] at hee
    · obtain ⟨n, hn, rfl⟩ := List.mem_map.mp hee
      left; simp
    · obtain ⟨n, hn, hee2⟩ := List.mem_flatMap.mp hee
      rcases List.mem_append.mp hee2 with h | h
      · rcases tagGrantEvts_step env _ _ _ _ e h with h' | h'
        · right; left; exact h'
        · right; right; exact h'
      · rcases List.mem_singleton.mp h with rfl
        left; simp

/-- Relationship events are `build_relationships` or governance log events. -/
theorem brBlock_step (env : ModelRunEnv) :
    ∀ e ∈ brBlock env, e.step = "build_relationships" ∨ e.step = "apply_tags" ∨
      e.step = "apply_grants" := by
  intro e he
  simp only [brBlock, List.mem_cons, List.mem_flatMap] at he
  rcases he with rfl | ⟨u, hu, hee⟩
  · left; simp
  · cases hs : u.buildRelOk <;> simp only [hs, Bool.false_eq_true, if_false,
      if_true] at hee
    · obtain ⟨n, hn, rfl⟩ := List.mem_map.mp hee
      left; simp
    · obtain ⟨n, hn, hee2⟩ := List.mem_flatMap.mp hee
      rcases List.mem_append.mp hee2 with h | h
      · rcases tagGrantEvts_step env _ _ _ _ e h with h' | h'
        · right; left; exact h'
        · right; right; exact h'
      · rcases List.mem_singleton.mp h with rfl
        left; simp

/-- Data-storage events are `data_storage` or governance log events. -/
theorem dsBlock_step (env : ModelRunEnv) :
    ∀ e ∈ dsBlock env, e.step = "data_storage" ∨ e.step = "apply_tags" ∨
      e.step = "apply_grants" := by
  intro e he
  simp only [dsBlock, List.mem_cons, List.mem_flatMap] at he
  rcases he with rfl | ⟨u, hu, hee⟩
  · left; simp
  · cases hs : u.dataStorageOk <;> simp only [hs, Bool.false_eq_true, if_false,
      if_true] at hee
    · rcases List.mem_singleton.mp hee with rfl
      left; simp
    · rcases List.mem_append.mp hee with h | h
      · cases hattr : attrNameOpt u.source u.bp <;> simp only [hattr] at h
        · cases h
        · rcases tagGrantEvts_step env _ _ _ _ e h with h' | h'
          · right; left; exact h'
          · right; right; exact h'
      · rcases List.mem_singleton.mp h with rfl
        left; simp

/-- Model-deployment events are `model_deployment` or governance log events. -/
theorem mdBlock_step (env : ModelRunEnv) :
    ∀ e ∈ mdBlock env, e.step = "model_deployment" ∨ e.step = "apply_tags" ∨
      e.step = "apply_grants" := by
  intro e he
  simp only [mdBlock, List.mem_cons] at he
  rcases he with rfl | he
  · left; simp
  · split_ifs at he with hraise
    · rcases List.mem_singleton.mp he with rfl
      left; simp
    · obtain ⟨x, hx, hee⟩ := List.mem_flatMap.mp he
      rcases List.mem_cons.mp hee with rfl | h
      · left; rfl
      · split_ifs at h
        · rcases tagGrantEvts_step env _ _ _ _ e h with h' | h'
          · right; left; exact h'
          · right; right; exact h'
        · cases h

/-- Seed-load events have step `seed_load`. -/
theorem seedBlock_step (env : ModelRunEnv) :
    ∀ e ∈ seedBlock env, e.step = "seed_load" := by
  intro e he
  simp only [seedBlock] at he
  split_ifs at he
  · rcases List.mem_cons.mp he with rfl | he'
    · simp
    · obtain ⟨u, hu, hee⟩ := List.mem_flatMap.mp he'
      cases hs : u.seedOk <;> simp [hs] at hee <;> (subst hee; simp)
  · cases he

/-- All indices of a block are its own stage position when every event of
the block is either at that stage or a non-stage log event. -/
theorem stageIdxs_all_eq {B : List Event} {i : Nat}
    (h : ∀ e ∈ B, stageIdx e.step = some i ∨ stageIdx e.step = none) :
    ∀ x ∈ stageIdxs B, x = i := by
  intro x hx
  obtain ⟨e, he, hfe⟩ := List.mem_filterMap.mp hx
  rcases h e he with h' | h'
  · rw [h'] at hfe
    exact (Option.some.inj hfe).symm
  · rw [h'] at hfe
    cases hfe

/-- A constant list is ordered. -/
theorem pairwise_le_of_all_eq {l : List Nat} {c : Nat} (h : ∀ x ∈ l, x = c) :
    l.Pairwise (· ≤ ·) := by
  induction l with
  | nil => exact List.Pairwise.nil
  | cons a t ih =>
    refine List.Pairwise.cons ?_ (ih fun x hx => h x (List.mem_cons_of_mem a hx))
    intro b hb
    rw [h a (List.mem_cons_self a t), h b (List.mem_cons_of_mem a hb)]

/-- Gluing two ordered lists separated by a bound. -/
theorem pairwise_le_append_of_bounds {l₁ l₂ : List Nat} {c : Nat}
    (h1 : ∀ x ∈ l₁, x ≤ c) (h2 : ∀ x ∈ l₂, c ≤ x)
    (p1 : l₁.Pairwise (· ≤ ·)) (p2 : l₂.Pairwise (· ≤ ·)) :
    (l₁ ++ l₂).Pairwise (· ≤ ·) :=
  List.pairwise_append.mpr ⟨p1, p2, fun a ha b hb => le_trans (h1 a ha) (h2 b hb)⟩

/-- Bounding the stage positions of one block by its pipeline index. -/
theorem stageIdxs_staging (env : ModelRunEnv) :
    ∀ x ∈ stageIdxs (stagingBlock env), x = 0 :=
  stageIdxs_all_eq (fun e he => Or.inl (by rw [stagingBlock_step env e he]; rfl))

theorem stageIdxs_dp (env : ModelRunEnv) :
    ∀ x ∈ stageIdxs (dpBlock env), x = 1 :=
  stageIdxs_all_eq (fun e he => Or.inl (by rw [dpBlock_step env e he]; rfl))

theorem stageIdxs_ks (env : ModelRunEnv) :
    ∀ x ∈ stageIdxs (ksBlock env), x = 2 :=
  stageIdxs_all_eq (fun e he => by
    rcases ksBlock_step env e he with h | h | h <;> rw [h] <;>
      first | exact Or.inl rfl | exact Or.inr rfl)

theorem stageIdxs_br (env : ModelRunEnv) :
    ∀ x ∈ stageIdxs (brBlock env), x = 3 :=
  stageIdxs_all_eq (fun e he => by
    rcases brBlock_step env e he with h | h | h <;> rw [h] <;>
      first | exact Or.inl rfl | exact Or.inr rfl)

theorem stageIdxs_ds (env : ModelRunEnv) :
    ∀ x ∈ stageIdxs (dsBlock env), x = 4 :=
  stageIdxs_all_eq (fun e he => by
    rcases dsBlock_step env e he with h | h | h <;> rw [h] <;>
      first | exact Or.inl rfl | exact Or.inr rfl)

theorem stageIdxs_md (env : ModelRunEnv) :
    ∀ x ∈ stageIdxs (mdBlock env), x = 6 :=
  stageIdxs_all_eq (fun e he => by
    rcases mdBlock_step env e he with h | h | h <;> rw [h] <;>
      first | exact Or.inl rfl | exact Or.inr rfl)

theorem stageIdxs_seed (env : ModelRunEnv) :
    ∀ x ∈ stageIdxs (seedBlock env), x = 7 :=
  stageIdxs_all_eq (fun e he => Or.inl (by rw [seedBlock_step env e he]; rfl))

theorem stageIdxs_completeEvt (env : ModelRunEnv) :
    ∀ x ∈ stageIdxs [runCompleteEvt env], x = 8 :=
  stageIdxs_all_eq (fun e he => by
    rcases List.mem_singleton.mp he with rfl
    exact Or.inl rfl)

/-- The stage events of a run appear in strictly pipeline order
(every extracted position is ≤ every later one — no back-edges). -/
theorem stageIdxs_pairwise (env : ModelRunEnv) (hpre : env.preStageRaises = false) :
    (stageIdxs (deployModelStaged env)).Pairwise (· ≤ ·) := by
  have lb : ∀ {S : List Nat} {c j : Nat}, (∀ x ∈ S, x = j) → c ≤ j →
      ∀ x ∈ S, c ≤ x := fun h hcj x hx => (h x hx) ▸ hcj
  have lbapp : ∀ {S T : List Nat} {c : Nat}, (∀ x ∈ S, c ≤ x) →
      (∀ x ∈ T, c ≤ x) → ∀ x ∈ S ++ T, c ≤ x :=
    fun hS hT x hx => (List.mem_append.mp hx).elim (hS x) (hT x)
  have h0 := stageIdxs_staging env
  have h1 := stageIdxs_dp env
  have h2 := stageIdxs_ks env
  have h3 := stageIdxs_br env
  have h4 := stageIdxs_ds env
  have h6 := stageIdxs_md env
  have h7 := stageIdxs_seed env
  have h8 := stageIdxs_completeEvt env
  have P8 := pairwise_le_of_all_eq h8
  have P7 : (stageIdxs (seedBlock env) ++ stageIdxs [runCompleteEvt env]).Pairwise
      (· ≤ ·) :=
    pairwise_le_append_of_bounds (c := 7) (fun x hx => le_of_eq (h7 x hx))
      (lb h8 (by omega)) (pairwise_le_of_all_eq h7) P8
  have L7 := lbapp (lb h7 (le_refl 7)) (lb h8 (by omega))
  have P6 := pairwise_le_append_of_bounds (c := 6) (fun x hx => le_of_eq (h6 x hx))
    (fun x hx => le_trans (by omega) (L7 x hx)) (pairwise_le_of_all_eq h6) P7
  have L6 := lbapp (lb h6 (le_refl 6)) (fun x hx => le_trans (by omega) (L7 x hx))
  have P4 := pairwise_le_append_of_bounds (c := 4) (fun x hx => le_of_eq (h4 x hx))
    (fun x hx => le_trans (by omega) (L6 x hx)) (pairwise_le_of_all_eq h4) P6
  have L4 := lbapp (lb h4 (le_refl 4)) (fun x hx => le_trans (by omega) (L6 x hx))
  have P3 := pairwise_le_append_of_bounds (c := 3) (fun x hx => le_of_eq (h3 x hx))
    (fun x hx => le_trans (by omega) (L4 x hx)) (pairwise_le_of_all_eq h3) P4
  have L3 := lbapp (lb h3 (le_refl 3)) (fun x hx => le_trans (by omega) (L4 x hx))
  have P2 := pairwise_le_append_of_bounds (c := 2) (fun x hx => le_of_eq (h2 x hx))
    (fun x hx => le_trans (by omega) (L3 x hx)) (pairwise_le_of_all_eq h2) P3
  have L2 := lbapp (lb h2 (le_refl 2)) (fun x hx => le_trans (by omega) (L3 x hx))
  have P1 := pairwise_le_append_of_bounds (c := 1) (fun x hx => le_of_eq (h1 x hx))
    (fun x hx => le_trans (by omega) (L2 x hx)) (pairwise_le_of_all_eq h1) P2
  have L1 := lbapp (lb h1 (le_refl 1)) (fun x hx => le_trans (by omega) (L2 x hx))
  have P0 := pairwise_le_append_of_bounds (c := 0) (fun x hx => le_of_eq (h0 x hx))
    (fun x hx => Nat.zero_le x) (pairwise_le_of_all_eq h0) P1
  have hsplit : stageIdxs (deployModelStaged env) =
      stageIdxs (stagingBlock env) ++ (stageIdxs (dpBlock env)
        ++ (stageIdxs (ksBlock env) ++ (stageIdxs (brBlock env)
        ++ (stageIdxs (dsBlock env) ++ (stageIdxs (mdBlock env)
        ++ (stageIdxs (seedBlock env) ++ stageIdxs [runCompleteEvt env])))))) := by
    rw [deployModelStaged_eq env hpre]
    simp only [stageIdxs, List.filterMap_append, List.append_assoc]
  rw [hsplit]
  exact P0

/-- Only the seed-load stage ever emits `seed_load` events. -/
theorem seed_only_in_seedBlock (env : ModelRunEnv) (hpre : env.preStageRaises = false) :
    ∀ e ∈ deployModelStaged env, e.step = "seed_load" → e ∈ seedBlock env := by
  intro e he hs
  rw [deployModelStaged_eq env hpre] at he
  simp only [List.mem_append, List.mem_singleton] at he
  rcases he with ((((((h | h) | h) | h) | h) | h) | h) | h
  · exact absurd (hs ▸ stagingBlock_step env e h) (by decide)
  · exact absurd (hs ▸ dpBlock_step env e h) (by decide)
  · rcases ksBlock_step env e h with h' | h' | h' <;>
      exact absurd (hs ▸ h') (by decide)
  · rcases brBlock_step env e h with h' | h' | h' <;>
      exact absurd (hs ▸ h') (by decide)
  · rcases dsBlock_step env e h with h' | h' | h' <;>
      exact absurd (hs ▸ h') (by decide)
  · rcases mdBlock_step env e h with h' | h' | h' <;>
      exact absurd (hs ▸ h') (by decide)
  · exact h
  · subst h
    exact absurd hs (by simp [runCompleteEvt])

/-- C4 (amended): for every run that reaches the stages, the extracted stage
positions are globally ordered (no back-edges); the stages staging,
data_processing, key_storage, build_relationships, data_storage,
model_deployment and complete always emit events; `supporting_artefacts`
emits no event at all — its completion is recorded only via its
`steps_completed` flag, which is always true; and `seed_load` emits events
exactly when a full refresh was requested, its flag being the distinct
tri-state value `none` ("not requested", never `some false` = failed) when
not requested. -/
theorem c4_stage_order_and_seed (env : ModelRunEnv) (hpre : env.preStageRaises = false) :
    (stageIdxs (deployModelStaged env)).Pairwise (· ≤ ·) ∧
    (∀ s ∈ (["staging", "data_processing", "key_storage", "build_relationships",
             "data_storage", "model_deployment", "complete"] : List String),
       ∃ e ∈ deployModelStaged env, e.step = s) ∧
    (∀ e ∈ deployModelStaged env, e.step ≠ "supporting_artefacts") ∧
    (stepsCompletedOf env).supporting_artefacts = true ∧
    (env.runFullRefresh = false →
      (∀ e ∈ deployModelStaged env, e.step ≠ "seed_load") ∧
      (stepsCompletedOf env).seed_load = none ∧
      (stepsCompletedOf env).seed_load ≠ some false) ∧
    (env.runFullRefresh = true →
      ∃ e ∈ deployModelStaged env, e.step = "seed_load") := by
  refine ⟨stageIdxs_pairwise env hpre, ?_, ?_, rfl, ?_, ?_⟩
  · intro s hs
    simp only [List.mem_cons, List.mem_singleton, List.not_mem_nil, or_false] at hs
    rcases hs with rfl | rfl | rfl | rfl | rfl | rfl | rfl
    · exact ⟨mkEvt "SUCCESS" "staging" "starting" (some env.model_id),
        by rw [deployModelStaged_eq env hpre]; simp [stagingBlock], rfl⟩
    · exact ⟨mkEvt "SUCCESS" "data_processing" "starting" (some env.model_id),
        by rw [deployModelStaged_eq env hpre]; simp [dpBlock], rfl⟩
    · exact ⟨mkEvt "INFO" "key_storage" "starting" (some env.model_id),
        by rw [deployModelStaged_eq env hpre]; simp [ksBlock], rfl⟩
    · exact ⟨mkEvt "INFO" "build_relationships" "starting" (some env.model_id),
        by rw [deployModelStaged_eq env hpre]; simp [brBlock], rfl⟩
    · exact ⟨mkEvt "INFO" "data_storage" "starting" (some env.model_id),
        by rw [deployModelStaged_eq env hpre]; simp [dsBlock], rfl⟩
    · exact ⟨mkEvt "INFO" "model_deployment" "starting" (some env.model_id),
        by rw [deployModelStaged_eq env hpre]; simp [mdBlock], rfl⟩
    · exact ⟨runCompleteEvt env, runComplete_mem env hpre, rfl⟩
  · intro e he
    rw [deployModelStaged_eq env hpre] at he
    simp only [List.mem_append, List.mem_singleton] at he
    rcases he with ((((((h | h) | h) | h) | h) | h) | h) | h
    · rw [stagingBlock_step env e h]; decide
    · rw [dpBlock_step env e h]; decide
    · rcases ksBlock_step env e h with h' | h' | h' <;> rw [h'] <;> decide
    · rcases brBlock_step env e h with h' | h' | h' <;> rw [h'] <;> decide
    · rcases dsBlock_step env e h with h' | h' | h' <;> rw [h'] <;> decide
    · rcases mdBlock_step env e h with h' | h' | h' <;> rw [h'] <;> decide
    · rw [seedBlock_step env e h]; decide
    · subst h; simp [runCompleteEvt]
  · intro hoff
    refine ⟨?_, by simp [stepsCompletedOf, hoff], by simp [stepsCompletedOf, hoff]⟩
    intro e he hs
    have := seed_only_in_seedBlock env hpre e he hs
    rw [seedBlock] at this
    simp [hoff] at this
  · intro hon
    exact ⟨mkEvt "INFO" "seed_load" "starting" (some env.model_id),
      by rw [deployModelStaged_eq env hpre]; simp [seedBlock, hon], rfl⟩

/-- C4 counterexample: a fully successful run (full refresh requested) emits
events for every stage except `supporting_artefacts`, which never appears in
the stream — so "no stage skipped except seed_load" is false as stated. -/
theorem c4_supporting_artefacts_has_no_events :
    (deployModelStaged envOkRefresh).any (fun e => e.step = "staging") = true ∧
    (deployModelStaged envOkRefresh).any (fun e => e.step = "data_processing") = true ∧
    (deployModelStaged envOkRefresh).any (fun e => e.step = "key_storage") = true ∧
    (deployModelStaged envOkRefresh).any (fun e => e.step = "build_relationships") = true ∧
    (deployModelStaged envOkRefresh).any (fun e => e.step = "data_storage") = true ∧
    (deployModelStaged envOkRefresh).any (fun e => e.step = "model_deployment") = true ∧
    (deployModelStaged envOkRefresh).any (fun e => e.step = "seed_load") = true ∧
    (deployModelStaged envOkRefresh).any
      (fun e => e.step = "complete" && e.status = "complete") = true ∧
    (deployModelStaged envOkRefresh).all
      (fun e => e.step ≠ "supporting_artefacts") = true := by
  refine ⟨by decide, by decide, by decide, by decide, by decide, by decide,
    by decide, by decide, by decide⟩

/-- C4 witness: the amended theorem applied to the all-success single-unit
run without full refresh. -/
theorem c4_stage_order_and_seed_witness :
    envOk.preStageRaises = false ∧
    (stageIdxs (deployModelStaged envOk)).Pairwise (· ≤ ·) ∧
    (stepsCompletedOf envOk).seed_load = none :=
  ⟨by decide, (c4_stage_order_and_seed envOk (by decide)).1,
    (((c4_stage_order_and_seed envOk (by decide)).2.2.2.2.1 (by decide)).2.1)⟩

/-- C8: a failed scheduled-task creation is terminal for its unit — in the
staged pipeline it fails that unit's data processing and marks the stage's
flag false with no resume attempted; in the single-blueprint pipeline it
aborts the whole unit (error event + escaped exception).  When the creation
succeeds the resume is the very next call. -/
theorem c8_task_failure_terminal (u : UnitRun) (menv : ModelRunEnv)
    (senv : SingleRunEnv) (hu : u ∈ menv.units) :
    (u.streamOk = true → u.taskCreateOk = false →
      dpUnitOk u = false ∧
      (stepsCompletedOf menv).data_processing = false ∧
      DPAction.resumeTask ∉ dataProcessingActions u) ∧
    (u.streamOk = true → u.taskCreateOk = true →
      ∃ rest, dataProcessingActions u =
        DPAction.runStream :: DPAction.createTask :: DPAction.resumeTask :: rest) ∧
    (senv.rendererOk = true → senv.dbExists = true → senv.viewOk = true →
     senv.streamOk = true → senv.nodesOk = true → senv.edgesOk = true →
     senv.attrOk = true → senv.mtiOk = true → senv.taskOk = false →
      (deploySingleBlueprint senv).outcome = some "Task creation failed" ∧
      (∃ e ∈ (deploySingleBlueprint senv).events,
        e.step = "task" ∧ e.status = "failed")) := by
  refine ⟨?_, ?_, ?_⟩
  · intro hstream htask
    have hdp : dpUnitOk u = false := by simp [dpUnitOk, hstream, htask]
    refine ⟨hdp, ?_, ?_⟩
    · simp only [stepsCompletedOf]
      rw [List.all_eq_false]
      exact ⟨u, hu, by simp [hdp]⟩
    · simp [dataProcessingActions, hstream, htask]
  · intro hstream htask
    refine ⟨if u.taskResumeOk then
        (if bindingObjectStr u.bp ≠ "" then
          [DPAction.applyTags, DPAction.applyGrants] else []) else [], ?_⟩
    simp [dataProcessingActions, hstream, htask]
  · intro h1 h2 h3 h4 h5 h6 h7 h8 h9
    have hcore : (runSingleCore senv).2.2.2 = some "Task creation failed" := by
      simp [runSingleCore, h1, h2, h3, h4, h5, h6, h7, h8, h9]
    constructor
    · simp [deploySingleBlueprint, hcore]
    · refine ⟨mkEvt "ERROR" "task" "failed" none none
        (some ("TASK_" ++ pyUpper (sBindingObject senv))), ?_, rfl, rfl⟩
      simp [deploySingleBlueprint, hcore, runSingleCore,
        h1, h2, h3, h4, h5, h6, h7, h8, h9]

/-- C8 witness: the theorem applied to the failing-task environment and a
failing-task unit inside a staged run. -/
theorem c8_task_failure_terminal_witness :
    ({ okUnit "bp1" "n1" with taskCreateOk := false } ∈
      ({ envOk with units := [{ okUnit "bp1" "n1" with taskCreateOk := false }] }
        : ModelRunEnv).units) ∧
    (deploySingleBlueprint envTaskFail).outcome = some "Task creation failed" :=
  ⟨by decide,
    ((c8_task_failure_terminal { okUnit "bp1" "n1" with taskCreateOk := false }
        { envOk with units := [{ okUnit "bp1" "n1" with taskCreateOk := false }] }
        envTaskFail (by decide)).2.2 rfl rfl rfl rfl rfl rfl rfl rfl rfl).1⟩

/-- C10 counterexample: failing the edge-creation statement, the single
status update records the edge table (appended to the tracking list before
its statement ran) and the `STG_`-named stage view (never created under that
name), although neither is among the objects whose creating statements
actually succeeded — the recorded list is not "the objects deployed before
the failure". -/
theorem c10_failure_list_overstates :
    (deploySingleBlueprint envEdgeFail).updates =
      [("bpX",
        ["UH.STORAGE.STG_T_SAP", "UH.STORAGE.STREAM_T", "UH.MODEL.NODE_P",
         "UH.MODEL.NODE_S", "UH.MODEL.EDGE_P_S"],
        some "edge creation failed")] ∧
    (deploySingleBlueprint envEdgeFail).executed =
      ["UH.STORAGE.VIEW_T", "UH.STORAGE.STREAM_T", "UH.MODEL.NODE_P",
       "UH.MODEL.NODE_S"] ∧
    "UH.MODEL.EDGE_P_S" ∉ (deploySingleBlueprint envEdgeFail).executed ∧
    "UH.STORAGE.STG_T_SAP" ∉ (deploySingleBlueprint envEdgeFail).executed ∧
    (deploySingleBlueprint envEdgeFail).outcome = some "edge creation failed" := by
  refine ⟨by decide, by decide, by decide, by decide, by decide⟩

/-- C10 (amended): every streamed single-blueprint deployment attempts the
deployed-status update exactly once — on success with the tracked object
list and a null error, on failure with the list tracked so far (which can
include names recorded before their statements ran) and the error message —
and a failure of the update itself is swallowed: it changes neither the
events, nor the outcome, nor what was executed. -/
theorem c10_status_update_exactly_once (env : SingleRunEnv) :
    (deploySingleBlueprint env).updates.length = 1 ∧
    (∃ tr, (deploySingleBlueprint env).updates =
       [(env.blueprint_id, tr, (deploySingleBlueprint env).outcome)]) ∧
    (∀ b : Bool,
      (deploySingleBlueprint { env with updateOk := b }).events =
        (deploySingleBlueprint env).events ∧
      (deploySingleBlueprint { env with updateOk := b }).outcome =
        (deploySingleBlueprint env).outcome ∧
      (deploySingleBlueprint { env with updateOk := b }).executed =
        (deploySingleBlueprint env).executed ∧
      (deploySingleBlueprint { env with updateOk := b }).updates =
        (deploySingleBlueprint env).updates) := by
  have hcore : ∀ b : Bool,
      runSingleCore { env with updateOk := b } = runSingleCore env := by
    intro b
    cases env
    rfl
  have hid : ∀ b : Bool, ({ env with updateOk := b } : SingleRunEnv).blueprint_id =
      env.blueprint_id := fun _ => rfl
  rcases herr : (runSingleCore env).2.2.2 with _ | msg
  · refine ⟨by simp [deploySingleBlueprint, herr], ?_, ?_⟩
    · exact ⟨(runSingleCore env).2.1, by simp [deploySingleBlueprint, herr]⟩
    · intro b
      refine ⟨?_, ?_, ?_, ?_⟩ <;> simp [deploySingleBlueprint, hcore b, herr, hid b]
  · refine ⟨by simp [deploySingleBlueprint, herr], ?_, ?_⟩
    · exact ⟨(runSingleCore env).2.1, by simp [deploySingleBlueprint, herr]⟩
    · intro b
      refine ⟨?_, ?_, ?_, ?_⟩ <;> simp [deploySingleBlueprint, hcore b, herr, hid b]

/-- C1 witness: forcing a top-level exception before any model is processed
still persists exactly one audit record, with aggregate status `failed`. -/
theorem c1_audit_always_persisted_witness :
    ((runStagedDeployment (some "config load failed") [] true true).persisted =
      [(runStagedDeployment (some "config load failed") [] true true).record]) ∧
    (runStagedDeployment (some "config load failed") [] true true).record.status
      = "failed" :=
  ⟨(c1_audit_always_persisted (some "config load failed") [] true true rfl rfl).1,
   by decide⟩

/-- C7 counterexample: the compiler's full-refresh operation returns one
undifferentiated text; the deployer's executed segments are a function of
that text obtained by re-parsing its lines, and on a rendered text whose
insert block lacks its `FROM ...;` terminator the insert is silently dropped
for a warning — none of which could happen if the truncate sub-statements
and the insert sub-statement were exposed as separate pre-segmented values. -/
theorem c7_compiler_returns_single_text :
    full_refresh_mti ["D.S.NODE_EQ"] ["WHEN 1=1 THEN"] "FROM D.S.VIEW_X;" =
      "TRUNCATE TABLE D.S.NODE_EQ;\nINSERT ALL\nWHEN 1=1 THEN\nFROM D.S.VIEW_X;" ∧
    fullRefreshPlan
        (full_refresh_mti ["D.S.NODE_EQ"] ["WHEN 1=1 THEN"] "FROM D.S.VIEW_X;") =
      [FullRefreshAction.truncate "TRUNCATE TABLE D.S.NODE_EQ;",
       FullRefreshAction.insertAll "INSERT ALL\nWHEN 1=1 THEN\nFROM D.S.VIEW_X;"] ∧
    fullRefreshPlan "TRUNCATE TABLE D.S.NODE_EQ;\nINSERT ALL\nWHEN 1=1 THEN INTO X" =
      [FullRefreshAction.truncate "TRUNCATE TABLE D.S.NODE_EQ;",
       FullRefreshAction.warnMissingInsert] := by
  refine ⟨by decide, by decide, by decide⟩

/-- C7 witness: the amended round-trip theorem applied to a two-table render. -/
theorem c7_segments_recovered_witness :
    parseFullRefresh (full_refresh_mti ["D.S.NODE_EQ", "D.S.ATTR_EQ_T_SAP"]
        ["WHEN 1=1 THEN", "INTO D.S.NODE_EQ VALUES (ID)"] "FROM D.S.VIEW_T;") =
      (["D.S.NODE_EQ", "D.S.ATTR_EQ_T_SAP"].map
          (fun t => "TRUNCATE TABLE " ++ t ++ ";"),
       some (joinNl ("INSERT ALL" ::
          (["WHEN 1=1 THEN", "INTO D.S.NODE_EQ VALUES (ID)"]
            ++ ["FROM D.S.VIEW_T;"])))) :=
  c7_segments_recovered_by_reparsing ["D.S.NODE_EQ", "D.S.ATTR_EQ_T_SAP"]
    ["WHEN 1=1 THEN", "INTO D.S.NODE_EQ VALUES (ID)"] "FROM D.S.VIEW_T;"
    (by decide) (by decide) (by decide)

end UHEngine
